import Mathlib

/-!
Verification development for the localagent Agent Runtime Core.

Rust strings are modelled as lists of characters (`Str`), and the Rust
standard-library string operations used by the code under verification are
re-implemented as structural recursions so that every definition evaluates
inside the kernel.  Each subsystem namespace embeds one source file; the
definitions keep the source names.
-/

/-- Rust `String` / `&str`, modelled as a list of characters. -/
abbrev Str := List Char

namespace RustStr

/-- Rust `str::contains(pat)`: some contiguous sublist of `s` equals `pat`. -/
def containsSub (s pat : Str) : Bool :=
  match s with
  | [] => pat.isEmpty
  | _ :: t => pat.isPrefixOf s || containsSub t pat

/-- ASCII lower-casing of one character (Rust `to_lowercase` restricted to
ASCII, which is all the code under verification compares). -/
def asciiLower (c : Char) : Char :=
  if 65 ≤ c.toNat ∧ c.toNat ≤ 90 then Char.ofNat (c.toNat + 32) else c

/-- Rust `str::to_lowercase` (ASCII fragment). -/
def lower (s : Str) : Str := s.map asciiLower

/-- ASCII whitespace (the fragment of Rust `char::is_whitespace` relevant
to the strings compared by the code). -/
def isWs (c : Char) : Bool :=
  c = ' ' || c = '\t' || c = '\n' || c = '\r'

/-- Rust `str::trim`. -/
def trim (s : Str) : Str :=
  ((s.dropWhile isWs).reverse.dropWhile isWs).reverse

/-- Rust `str::len` (UTF-8 byte length). -/
def byteLen (s : Str) : Nat :=
  (s.map Char.utf8Size).sum

/-- Rust `str::ends_with`. -/
def endsWith (s pat : Str) : Bool :=
  pat.isSuffixOf s

/-- Rust `str::starts_with`. -/
def startsWith (s pat : Str) : Bool :=
  pat.isPrefixOf s

/-- Split on a separator character (Rust `str::split('.')`-style). -/
def splitChar (sep : Char) : Str → List Str
  | [] => [[]]
  | c :: t =>
    match splitChar sep t with
    | [] => [[c]]
    | h :: rest => if c = sep then [] :: h :: rest else (c :: h) :: rest

/-- Digits of a decimal numeral (helper for rendering counts in messages). -/
def natToStr (n : Nat) : Str := Nat.toDigits 10 n

/-- Rust `str::replace` for a non-empty pattern, fuel-based so the kernel
can evaluate it (`fuel = s.length` always suffices). -/
def replaceFuel (old new : Str) : Nat → Str → Str
  | 0, s => s
  | _ + 1, [] => []
  | f + 1, c :: t =>
    if old.isPrefixOf (c :: t) then new ++ replaceFuel old new f ((c :: t).drop old.length)
    else c :: replaceFuel old new f t

/-- Rust `str::replace` (all occurrences; empty pattern never occurs at the
call sites under verification). -/
def replaceAll (s old new : Str) : Str :=
  replaceFuel old new s.length s

/-- Rust `str::replacen(old, new, 1)`: replace the first occurrence only. -/
def replaceFirst (old new : Str) : Str → Str
  | [] => []
  | c :: t =>
    if old.isPrefixOf (c :: t) then new ++ (c :: t).drop old.length
    else c :: replaceFirst old new t

/-- Rust `content.matches(old).count()` for a non-empty pattern, fuel-based. -/
def countOccFuel (old : Str) : Nat → Str → Nat
  | 0, _ => 0
  | _ + 1, [] => 0
  | f + 1, c :: t =>
    if old.isPrefixOf (c :: t) then 1 + countOccFuel old f ((c :: t).drop old.length)
    else countOccFuel old f t

/-- Rust `content.matches(old).count()`. -/
def countOcc (s old : Str) : Nat :=
  countOccFuel old s.length s

/-- Decimal rendering of an integer (for exit codes in messages). -/
def intToStr (i : Int) : Str :=
  if i < 0 then '-' :: Nat.toDigits 10 i.natAbs else Nat.toDigits 10 i.natAbs

end RustStr

/-!
## Failover provider  (crates/core/src/agent/failover.rs)

`FailoverProvider` holds a `Vec<Box<dyn LLMProvider>>` and a parallel
`Vec<AtomicU64>` of cooldown expiries (seconds since `start_instant`; `0`
means no cooldown).  The embedding zips the two vectors into one list of
slots.  All three entry points (`chat`, `chat_stream`, `summarize`) run the
identical loop differing only in the wrapped provider call, so the loop is
embedded once, with each provider's behaviour given by the outcome the
provider would return when consulted, together with the clock reading
(`start_instant.elapsed().as_secs()`) at the moment the loop reaches it.
-/

namespace Failover

/-- Value of `COOLDOWN_SECS`. -/
def COOLDOWN_SECS : Nat := 60

/-- Outcome of one provider call (`Result<_, anyhow::Error>` with the error
reduced to its display text, which is all `is_retryable` inspects). -/
inductive CallOutcome where
  | ok (result : Str)
  | err (msg : Str)
deriving DecidableEq, Repr

/-- One provider slot: the outcome the provider returns if consulted, the
clock reading when the loop reaches this slot, and the slot's current
cooldown expiry (0 = none). -/
structure PSlot where
  outcome : CallOutcome
  time : Nat
  cooldown : Nat
deriving DecidableEq, Repr

/-- `FailoverProvider::is_retryable`. -/
def is_retryable (msg : Str) : Bool :=
  let m := RustStr.lower msg
  RustStr.containsSub m "429".data || RustStr.containsSub m "rate limit".data ||
    RustStr.containsSub m "ratelimit".data ||
  RustStr.containsSub m "500".data || RustStr.containsSub m "502".data ||
    RustStr.containsSub m "503".data ||
  RustStr.containsSub m "timeout".data ||
  RustStr.containsSub m "connection refused".data ||
  RustStr.containsSub m "connection reset".data ||
  RustStr.containsSub m "connection closed".data ||
  RustStr.containsSub m "timed out".data

/-- `FailoverProvider::is_in_cooldown` for one slot: expiry 0 means no
cooldown, otherwise in cooldown while `elapsed < expiry`. -/
def is_in_cooldown (s : PSlot) : Bool :=
  if s.cooldown = 0 then false else decide (s.time < s.cooldown)

/-- `FailoverProvider::set_cooldown` applied to one slot:
`expiry = elapsed + COOLDOWN_SECS`. -/
def set_cooldown (s : PSlot) : PSlot :=
  { s with cooldown := s.time + COOLDOWN_SECS }

/-- The synthetic "all providers in cooldown or unavailable" error text. -/
def allProvidersMsg (n : Nat) : Str :=
  "All ".data ++ RustStr.natToStr n ++ " providers in cooldown or unavailable".data

/-- The provider loop shared by `chat`, `chat_stream` and `summarize`:
walks the slots in order, skipping slots in cooldown, returning the first
success, advancing (with a cooldown) past retryable errors, and failing
immediately on non-retryable errors.  Returns the result, the updated
slots, and a mask recording which slots were actually consulted. -/
def callGo (total : Nat) (slots : List PSlot) (lastErr : Option Str) :
    Except Str Str × List PSlot × List Bool :=
  match slots with
  | [] => (.error (lastErr.getD (allProvidersMsg total)), [], [])
  | s :: rest =>
    if is_in_cooldown s then
      let (r, rest', mask) := callGo total rest lastErr
      (r, s :: rest', false :: mask)
    else
      match s.outcome with
      | .ok v => (.ok v, s :: rest, true :: rest.map fun _ => false)
      | .err e =>
        if is_retryable e then
          let (r, rest', mask) := callGo total rest (some e)
          (r, set_cooldown s :: rest', true :: mask)
        else
          (.error e, s :: rest, true :: rest.map fun _ => false)

/-- `FailoverProvider::chat` / `chat_stream` / `summarize`:
`last_err` starts as `None` and the synthetic message reports
`self.providers.len()`. -/
def failoverCall (slots : List PSlot) : Except Str Str × List PSlot × List Bool :=
  callGo slots.length slots none

/-- The full list of substrings `is_retryable` looks for in the lowercased
error text, in source order. -/
def retryablePatterns : List Str :=
  ["429".data, "rate limit".data, "ratelimit".data,
   "500".data, "502".data, "503".data,
   "timeout".data,
   "connection refused".data, "connection reset".data, "connection closed".data,
   "timed out".data]

end Failover

/-!
## Sentinel tokens  (src/agent/system_prompt.rs)

The exact strings marking "no user-visible output", and the two matching
predicates.  Rust `str::trim` strips Unicode whitespace and `len()` is the
UTF-8 byte count; the embedding uses ASCII whitespace and `Char.utf8Size`,
which agree on those.
-/

namespace SystemPrompt

/-- `SILENT_REPLY_TOKEN`. -/
def SILENT_REPLY_TOKEN : Str := "NO_REPLY".data

/-- `HEARTBEAT_OK_TOKEN`. -/
def HEARTBEAT_OK_TOKEN : Str := "HEARTBEAT_OK".data

/-- `is_heartbeat_ok`: exact match after trimming, or containment with at
most 30 extra bytes of padding. -/
def is_heartbeat_ok (response : Str) : Bool :=
  let trimmed := RustStr.trim response
  trimmed == HEARTBEAT_OK_TOKEN ||
    (RustStr.containsSub trimmed HEARTBEAT_OK_TOKEN &&
      decide (RustStr.byteLen trimmed ≤ RustStr.byteLen HEARTBEAT_OK_TOKEN + 30))

/-- `is_silent_reply`: exact match after trimming, or containment anywhere. -/
def is_silent_reply (response : Str) : Bool :=
  let trimmed := RustStr.trim response
  trimmed == SILENT_REPLY_TOKEN || RustStr.containsSub trimmed SILENT_REPLY_TOKEN

end SystemPrompt

/-!
## Heartbeat runner  (crates/core/src/heartbeat/runner.rs)

`HeartbeatRunner::run_once_internal` decides the status of one heartbeat
tick.  The embedding reads the external effects from an environment record:
the in-process gate state, the cross-process lock outcome, the content of
`HEARTBEAT.md`, the (successful) agent response, and the session-store
entry for the "heartbeat" key.  The session-store deduplication helpers
(`is_duplicate_heartbeat`, `record_heartbeat`) are not under `src/` and are
modelled from the spec; the persisted "text hash" is modelled by the text
itself, which is faithful for the "identical text" comparison.
-/

namespace Heartbeat

/-- `HeartbeatStatus`. -/
inductive HeartbeatStatus where
  | sent
  | ok
  | skipped
  | skippedMayTry
  | failed
  | timedOut
deriving DecidableEq, Repr

/-- Modelled from the spec: the heartbeat-deduplication fields of a
`SessionStore` entry (`last_heartbeat_hash`, `last_heartbeat_at`, the
latter in milliseconds since the epoch). -/
structure StoreEntry where
  last_heartbeat_hash : Option Str
  last_heartbeat_at : Option Nat
deriving DecidableEq, Repr

/-- 24 hours in milliseconds — the deduplication window. -/
def DEDUP_WINDOW_MS : Nat := 24 * 60 * 60 * 1000

/-- Modelled from the spec: `entry.is_duplicate_heartbeat(response)` — the
identical text was recorded within the prior 24 hours. -/
def is_duplicate_heartbeat (e : StoreEntry) (response : Str) (now : Nat) : Bool :=
  match e.last_heartbeat_hash, e.last_heartbeat_at with
  | some h, some t => h == response && decide (now < t + DEDUP_WINDOW_MS)
  | _, _ => false

/-- Modelled from the spec: `entry.record_heartbeat(response)` — persist
the response text (hash) and the current time. -/
def record_heartbeat (response : Str) (now : Nat) : StoreEntry :=
  { last_heartbeat_hash := some response, last_heartbeat_at := some now }

/-- Environment of one heartbeat tick: every external observation
`run_once_internal` makes, in source order. -/
structure HbEnv where
  /-- `gate.is_busy()` when an in-process TurnGate is configured. -/
  turnGateBusy : Option Bool
  /-- `workspace_lock.try_acquire()` returned a guard. -/
  workspaceLockAcquired : Bool
  /-- `gate.try_acquire()` succeeded (checked only when a gate is present). -/
  gateAcquired : Bool
  /-- Content of `HEARTBEAT.md`; `none` = file missing. -/
  heartbeatFile : Option Str
  /-- The successful agent response (provider errors propagate as `Err`
  outside this embedding). -/
  agentResponse : Str
  /-- `store.get("heartbeat")`. -/
  storeEntry : Option StoreEntry
  /-- Current time in milliseconds. -/
  now : Nat

/-- `HeartbeatRunner::run_once_internal`: returns the `(response, status)`
pair and the store entry written by the deduplication bookkeeping
(`none` = nothing recorded). -/
def run_once_internal (env : HbEnv) : (Str × HeartbeatStatus) × Option StoreEntry :=
  if env.turnGateBusy == some true then
    ((SystemPrompt.HEARTBEAT_OK_TOKEN, .skippedMayTry), none)
  else if !env.workspaceLockAcquired then
    ((SystemPrompt.HEARTBEAT_OK_TOKEN, .skippedMayTry), none)
  else if env.turnGateBusy.isSome && !env.gateAcquired then
    ((SystemPrompt.HEARTBEAT_OK_TOKEN, .skippedMayTry), none)
  else
    match env.heartbeatFile with
    | none => ((SystemPrompt.HEARTBEAT_OK_TOKEN, .skipped), none)
    | some content =>
      if (RustStr.trim content).isEmpty then
        ((SystemPrompt.HEARTBEAT_OK_TOKEN, .skipped), none)
      else
        let response := env.agentResponse
        if SystemPrompt.is_heartbeat_ok response then
          ((response, .ok), none)
        else
          match env.storeEntry with
          | some entry =>
            if is_duplicate_heartbeat entry response env.now then
              ((response, .skipped), none)
            else
              ((response, .sent), some (record_heartbeat response env.now))
          | none => ((response, .sent), some (record_heartbeat response env.now))

end Heartbeat

/-!
## Hook engine  (crates/core/src/hooks/runner.rs, event.rs, discovery.rs)

`HookEngine::fire` runs every enabled hook whose `event` field equals the
event's name; `run_hook` spawns the hook command and maps its outcome to a
decision.  The subprocess behaviour is given by an environment function
from hook definition to execution outcome.
-/

namespace Hooks

/-- `HookDef` (discovery.rs). -/
structure HookDef where
  name : Str
  event : Str
  command : Str
  timeout_ms : Nat
  enabled : Bool
deriving DecidableEq, Repr

/-- `HookDef::is_enabled`. -/
def is_enabled (h : HookDef) : Bool := h.enabled

/-- `HookDef::matches_event`. -/
def matches_event (h : HookDef) (ev : Str) : Bool := h.event == ev

/-- `HookEvent` (event.rs), reduced to its variant tag — the payload fields
are serialized to the hook's stdin and never influence the decision. -/
inductive HookEvent where
  | beforeToolCall
  | afterToolCall
  | onMessage
  | onSessionStart
  | onSessionEnd
deriving DecidableEq, Repr

/-- `HookEvent::event_name`. -/
def event_name : HookEvent → Str
  | .beforeToolCall => "before_tool_call".data
  | .afterToolCall => "after_tool_call".data
  | .onMessage => "on_message".data
  | .onSessionStart => "on_session_start".data
  | .onSessionEnd => "on_session_end".data

/-- `HookEvent::is_modifying`. -/
def is_modifying : HookEvent → Bool
  | .beforeToolCall => true
  | _ => false

/-- `HookDecision`. -/
inductive HookDecision where
  | allow
  | block (reason : Str)
deriving DecidableEq, Repr

/-- Outcome of running one hook subprocess under its timeout: the process
exited with a status code, the spawn/stdin-write/wait failed (the source
also folds a failed event serialization into this fail-open path), or the
timeout elapsed first. -/
inductive ExecOutcome where
  | exited (code : Int)
  | execError (msg : Str)
  | timedOut
deriving DecidableEq, Repr

/-- `HookEngine::run_hook`: exit status 0 allows, a non-zero status
produces a block decision, an execution failure fails open, and a timeout
blocks only for modifying events. -/
def run_hook (exec : HookDef → ExecOutcome) (h : HookDef) (event : HookEvent) :
    HookDecision :=
  match exec h with
  | .exited code =>
    if code = 0 then .allow
    else .block ("Hook ".data ++ h.name ++ " exited with code ".data ++ RustStr.intToStr code)
  | .execError _ => .allow
  | .timedOut =>
    if is_modifying event then .block ("Hook ".data ++ h.name ++ " timed out".data)
    else .allow

/-- The loop inside `HookEngine::fire`: a block decision is returned only
for modifying events, otherwise the remaining hooks still run. -/
def fireGo (exec : HookDef → ExecOutcome) (event : HookEvent) :
    List HookDef → HookDecision
  | [] => .allow
  | h :: rest =>
    match run_hook exec h event with
    | .allow => fireGo exec event rest
    | .block reason =>
      if is_modifying event then .block reason else fireGo exec event rest

/-- `HookEngine::fire`: filter the registered hooks to the enabled ones
matching the event name; with no matching hooks the event is allowed. -/
def fire (exec : HookDef → ExecOutcome) (hooks : List HookDef) (event : HookEvent) :
    HookDecision :=
  let matching := hooks.filter fun h => matches_event h (event_name event) && is_enabled h
  if matching.isEmpty then .allow
  else fireGo exec event matching

end Hooks

/-!
## Spawn-agent tool  (crates/core/src/agent/tools/spawn_agent.rs)

`SpawnAgentTool::execute` guards the depth limit, builds the subagent from
the safe tool set with `spawn_agent` filtered out, and runs the
provider/tool loop with a cap of 20 iterations.  The subagent's provider is
given as a response script (`chat : Nat → LLMResponseContent`, indexed by
loop iteration) together with per-iteration token usage.
-/

namespace SpawnAgent

/-- `DEFAULT_MAX_SPAWN_DEPTH`. -/
def DEFAULT_MAX_SPAWN_DEPTH : Nat := 1

/-- `DEFAULT_SUBAGENT_MODEL`. -/
def DEFAULT_SUBAGENT_MODEL : Str := "claude-cli/sonnet".data

/-- `SpawnParams` (the `task` field defaults to "explore" when absent). -/
structure SpawnParams where
  task : Str
  description : Str
  input : Str
  depth : Option Nat
deriving DecidableEq, Repr

/-- `SubAgentResult`. -/
structure SubAgentResult where
  success : Bool
  summary : Str
  details : Option Str
  error : Option Str
  tokens_used : Option Nat
deriving DecidableEq, Repr

/-- `SpawnContext`, reduced to the fields the control flow reads. -/
structure SpawnContext where
  depth : Nat
  maxDepth : Nat
deriving DecidableEq, Repr

/-- `SpawnAgentTool::from_config`:
`max_depth = config.agent.max_spawn_depth.unwrap_or(DEFAULT_MAX_SPAWN_DEPTH)`,
depth starts at 0. -/
def from_config (maxSpawnDepthCfg : Option Nat) : SpawnContext :=
  { depth := 0, maxDepth := maxSpawnDepthCfg.getD DEFAULT_MAX_SPAWN_DEPTH }

/-- `SpawnAgentTool::can_spawn`. -/
def can_spawn (ctx : SpawnContext) : Bool :=
  decide (ctx.depth < ctx.maxDepth)

/-- The per-task guidance block of `build_subagent_prompt`. -/
def task_guidance (task : Str) : Str :=
  if task == "explore".data then
    ("You are an exploration specialist. Your job is to search, read, and gather information. " ++
     "Be thorough but concise. Report findings clearly. Do NOT make changes.").data
  else if task == "plan".data then
    ("You are a planning specialist. Your job is to analyze requirements and create detailed plans. " ++
     "Break down complex tasks into steps. Consider edge cases. Provide clear recommendations.").data
  else if task == "implement".data then
    ("You are an implementation specialist. Your job is to write code and make changes. " ++
     "Follow existing patterns. Write clean, well-documented code. Test your changes.").data
  else if task == "analyze".data then
    ("You are an analysis specialist. Your job is to examine code/data and provide insights. " ++
     "Look for patterns, issues, and opportunities. Provide actionable recommendations.").data
  else
    "You are a specialist agent. Complete the assigned task and return results.".data

/-- `SpawnAgentTool::build_subagent_prompt`. -/
def build_subagent_prompt (params : SpawnParams) : Str :=
  "# Specialist Agent\n\n## Role\n".data ++ task_guidance params.task ++
  "\n\n## Task\n".data ++ params.description ++
  ("\n\n## Instructions\n- Focus only on the assigned task\n" ++
   "- Do NOT spawn additional agents\n- Return a clear summary of your work\n" ++
   "- If you cannot complete the task, explain why\n\n## Input\n").data ++
  (if params.input.isEmpty then "(No additional input provided)".data else params.input)

/-- `ToolCall` (providers.rs). -/
structure ToolCall where
  id : Str
  name : Str
  arguments : Str
deriving DecidableEq, Repr

/-- `LLMResponseContent` (providers.rs). -/
inductive LLMResponseContent where
  | text (t : Str)
  | toolCalls (calls : List ToolCall)
deriving DecidableEq, Repr

/-- One tool available to the subagent: its name and its execution
behaviour (`Err` results are already folded into the output text the way
the loop formats them). -/
structure ToolImpl where
  name : Str
  execute : Str → Str

/-- Message roles (providers.rs). -/
inductive Role where
  | system
  | user
  | assistant
  | tool
deriving DecidableEq, Repr

/-- `Message` (providers.rs), without the images payload the subagent loop
never populates. -/
structure Message where
  role : Role
  content : Str
  tool_calls : Option (List ToolCall)
  tool_call_id : Option Str
deriving DecidableEq, Repr

/-- Rust `str::lines`: split on newline, dropping one trailing empty line
and a carriage return at each line end. -/
def rustLines (s : Str) : List Str :=
  if s.isEmpty then []
  else
    let parts := RustStr.splitChar '\n' s
    let parts := if parts.getLast? = some [] then parts.dropLast else parts
    parts.map fun l => if l.getLast? = some '\r' then l.dropLast else l

/-- Rust `str::trim_start_matches` (repeatedly strip a non-empty leading
pattern), fuel-based. -/
def trimStartMatchesFuel (pat : Str) : Nat → Str → Str
  | 0, s => s
  | f + 1, s =>
    if ¬pat.isEmpty ∧ pat.isPrefixOf s then trimStartMatchesFuel pat f (s.drop pat.length)
    else s

/-- Rust `str::trim_start_matches`. -/
def trim_start_matches (s pat : Str) : Str :=
  trimStartMatchesFuel pat s.length s

/-- First pass of `parse_subagent_response`: a line whose trimmed form
starts with "Summary:" (or "summary:") and strips to a non-empty summary. -/
def findSummaryLine : List Str → Option Str
  | [] => none
  | l :: rest =>
    let t := RustStr.trim l
    if RustStr.startsWith t "Summary:".data || RustStr.startsWith t "summary:".data then
      let summary :=
        RustStr.trim (trim_start_matches (trim_start_matches t "Summary:".data) "summary:".data)
      if summary.isEmpty then findSummaryLine rest else some summary
    else findSummaryLine rest

/-- Second pass of `parse_subagent_response`: the first trimmed non-empty
line that is not a heading. -/
def findFallbackLine : List Str → Option Str
  | [] => none
  | l :: rest =>
    let t := RustStr.trim l
    if ¬t.isEmpty ∧ ¬RustStr.startsWith t "#".data then some t
    else findFallbackLine rest

/-- The first-sentence / 200-char truncation step of the fallback branch
(the source truncates at byte offsets; the embedding counts characters,
which agrees on ASCII). -/
def firstSentence (t : Str) : Str :=
  match t.findIdx? (· = '.') with
  | some pos => t.take (pos + 1)
  | none => if 200 < t.length then t.take 197 ++ "...".data else t

/-- `SpawnAgentTool::parse_subagent_response`. -/
def parse_subagent_response (text : Str) : Str × Option Str :=
  let lines := (rustLines text).take 5
  match findSummaryLine lines with
  | some s => (s, some text)
  | none =>
    match findFallbackLine lines with
    | some t => (firstSentence t, some text)
    | none => ("Task completed".data, some text)

/-- The subagent's tool set: `spawn_agent` is filtered out in both branches
of the depth comparison. -/
def filter_subagent_tools (ctx : SpawnContext) (tools : List ToolImpl) : List ToolImpl :=
  if ctx.depth + 1 ≥ ctx.maxDepth then
    tools.filter fun t => ¬t.name == "spawn_agent".data
  else
    tools.filter fun t => ¬t.name == "spawn_agent".data

/-- The model chosen for the subagent:
`ctx.model.or(config.agent.subagent_model).unwrap_or(DEFAULT_SUBAGENT_MODEL)`. -/
def subagent_model (ctxModel cfgSubagentModel : Option Str) : Str :=
  ((ctxModel.or cfgSubagentModel).getD DEFAULT_SUBAGENT_MODEL)

/-- `max_iterations` of the subagent loop. -/
def max_iterations : Nat := 20

/-- The failure result returned when the iteration cap is exceeded. -/
def maxIterResult (tokens : Nat) : SubAgentResult :=
  { success := false,
    summary := "Subagent reached maximum iterations".data,
    details := none,
    error := some "Max iterations exceeded".data,
    tokens_used := some tokens }

/-- Tool-result messages for one batch of tool calls: look the tool up by
name, fold errors and unknown names into the output text. -/
def execToolCalls (tools : List ToolImpl) (calls : List ToolCall) : List Message :=
  calls.map fun call =>
    { role := .tool,
      content :=
        match tools.find? (fun t => t.name == call.name) with
        | some t => t.execute call.arguments
        | none => "Error: Unknown tool: ".data ++ call.name,
      tool_calls := none,
      tool_call_id := some call.id }

/-- The subagent loop of `run_subagent`: `remaining` counts the loop
iterations still allowed (starting at `max_iterations`); when it reaches 0
the next iteration trips `iterations > max_iterations` and the loop
returns the max-iterations failure. -/
def runLoop (chat : Nat → LLMResponseContent) (usage : Nat → Nat)
    (tools : List ToolImpl) :
    Nat → Nat → Nat → List Message → SubAgentResult × List Message
  | 0, _, tokens, session => (maxIterResult tokens, session)
  | remaining + 1, iter, tokens, session =>
    let tokens' := tokens + usage iter
    match chat iter with
    | .text t =>
      ({ success := true,
         summary := (parse_subagent_response t).1,
         details := some t,
         error := none,
         tokens_used := some tokens' }, session)
    | .toolCalls calls =>
      let session' :=
        (session ++
          [{ role := .assistant, content := [], tool_calls := some calls,
             tool_call_id := none }]) ++ execToolCalls tools calls
      runLoop chat usage tools remaining (iter + 1) tokens' session'

/-- A subagent session: the system context set from the specialist prompt,
plus the message log. -/
structure SubSession where
  system_context : Str
  messages : List Message
deriving DecidableEq, Repr

/-- The initial user message of the subagent session. -/
def initUserMessage (params : SpawnParams) : Str :=
  if params.input.isEmpty then "Task: ".data ++ params.description
  else "Task: ".data ++ params.description ++ "\n\nInput:\n".data ++ params.input

/-- The seed session of the subagent: the task as the sole user message. -/
def initSession (params : SpawnParams) : List Message :=
  [{ role := .user, content := initUserMessage params,
     tool_calls := none, tool_call_id := none }]

/-- `SpawnAgentTool::run_subagent`: build the specialist prompt, filter the
tools, seed the session with the task as the user message, and run the
capped loop. -/
def run_subagent (ctx : SpawnContext) (params : SpawnParams)
    (chat : Nat → LLMResponseContent) (usage : Nat → Nat)
    (tools : List ToolImpl) : SubAgentResult × SubSession :=
  let system_prompt := build_subagent_prompt params
  let subTools := filter_subagent_tools ctx tools
  let (result, messages) := runLoop chat usage subTools max_iterations 1 0 (initSession params)
  (result, { system_context := system_prompt, messages := messages })

/-- The depth-limit refusal text of `SpawnAgentTool::execute`. -/
def maxDepthMsg (maxDepth : Nat) : Str :=
  "Cannot spawn agent: maximum depth (".data ++ RustStr.natToStr maxDepth ++
  ") reached. Complete the current task without spawning more agents.".data

/-- The result formatting of `SpawnAgentTool::execute`. -/
def formatResult (r : SubAgentResult) : Str :=
  if r.success then
    "## Subagent Result\n\n**Summary:** ".data ++ r.summary ++
    "\n\n**Details:**\n".data ++ (r.details.getD "No details provided".data) ++
    "\n\n**Tokens used:** ".data ++ RustStr.natToStr (r.tokens_used.getD 0)
  else
    "## Subagent Failed\n\n**Error:** ".data ++ (r.error.getD "Unknown error".data) ++
    "\n\n**Details:**\n".data ++ (r.details.getD "No details available".data)

/-- `SpawnAgentTool::execute`: check the depth limit (the refusal creates
no subagent — the second component is `none`), otherwise run the subagent
over the safe tool set and format its result. -/
def executeSpawn (ctx : SpawnContext) (params : SpawnParams)
    (chat : Nat → LLMResponseContent) (usage : Nat → Nat)
    (safeTools : List ToolImpl) : Str × Option (SubAgentResult × SubSession) :=
  let current_depth := params.depth.getD ctx.depth
  if current_depth ≥ ctx.maxDepth then
    (maxDepthMsg ctx.maxDepth, none)
  else
    let rs := run_subagent ctx params chat usage safeTools
    (formatResult rs.1, some rs)

end SpawnAgent

/-!
## Model aliasing and provider selection  (crates/core/src/agent/providers.rs)

`create_provider` first applies `resolve_model_alias` once, then splits a
qualified `provider/model` input at the first slash (lower-casing the
provider part), falls back to prefix heuristics and the configured-provider
default, and hands the model id to the constructed provider — normalized
through `normalize_model_id` for the anthropic provider, unchanged for the
other modelled providers.
-/

namespace Providers

/-- `resolve_model_alias`. -/
def resolve_model_alias (model : Str) : Str :=
  let m := RustStr.lower model
  if m == "opus".data then "anthropic/claude-opus-4-5".data
  else if m == "sonnet".data then "anthropic/claude-sonnet-4-5".data
  else if m == "gpt".data then "openai/gpt-4o".data
  else if m == "gpt-mini".data then "openai/gpt-4o-mini".data
  else if m == "glm".data then "glm/glm-4.7".data
  else if m == "grok".data then "xai/grok-3-mini".data
  else model

/-- `normalize_model_id`. -/
def normalize_model_id (provider model_id : Str) : Str :=
  if provider == "anthropic".data then
    let m := RustStr.lower model_id
    if m == "claude-opus-4-5".data || m == "opus".data then
      "claude-opus-4-5-20251101".data
    else if m == "claude-sonnet-4-5".data || m == "sonnet".data then
      "claude-sonnet-4-5-20250929".data
    else "claude-opus-4-5-20251101".data
  else model_id

/-- The provider-config fields `create_provider`'s selection logic reads:
the two flags of the default-provider heuristic, and the `claude_cli`
section's model (`none` = `providers.claude_cli` not configured), which
the `_` fallback arm substitutes for the input's model part. -/
structure ProvidersConfig where
  ollamaConfigured : Bool
  anthropicConfigured : Bool
  claudeCliModel : Option Str
deriving DecidableEq, Repr

/-- The provider names with a dedicated arm in `create_provider`'s match
(the claude-cli feature of the intended build is enabled; every other
provider string falls into the `_` fallback arm). -/
def known_provider_arms : List Str :=
  ["anthropic".data, "openai".data, "xai".data, "claude-cli".data,
   "ollama".data, "glm".data, "gemini".data, "github".data]

/-- The provider/model split of `create_provider`: split a qualified input
at the first `/` (provider part lower-cased), otherwise prefix heuristics,
otherwise the configured-provider default. -/
def parse_provider_model (model : Str) (cfg : ProvidersConfig) : Str × Str :=
  match model.findIdx? (· == '/') with
  | some pos => (RustStr.lower (model.take pos), model.drop (pos + 1))
  | none =>
    if RustStr.startsWith model "gpt-".data || RustStr.startsWith model "o1".data then
      ("openai".data, model)
    else if RustStr.startsWith model "claude-".data then ("anthropic".data, model)
    else if RustStr.startsWith model "glm-".data then ("glm".data, model)
    else if RustStr.startsWith model "grok-".data then ("xai".data, model)
    else if RustStr.startsWith model "gemini-".data then ("gemini".data, model)
    else if cfg.ollamaConfigured then ("ollama".data, model)
    else if cfg.anthropicConfigured then ("anthropic".data, model)
    else ("unknown".data, model)

/-- The model identifier handed to the constructed provider, arm for arm:
the anthropic arm calls `normalize_model_id("anthropic", model_id)`; the
seven other dedicated arms pass `model_id` through unchanged; the `_`
fallback arm discards the input's model part — with `providers.claude_cli`
configured it constructs the CLI provider with the *configured* model,
otherwise construction fails (`none`).  (A dedicated arm whose own
provider config is missing errors without constructing a provider, which
leaves this identifier moot.) -/
def effective_model_id (cfg : ProvidersConfig) (provider model_id : Str) :
    Option Str :=
  if provider == "anthropic".data then
    some (normalize_model_id "anthropic".data model_id)
  else if provider == "openai".data then some model_id
  else if provider == "xai".data then some model_id
  else if provider == "claude-cli".data then some model_id
  else if provider == "ollama".data then some model_id
  else if provider == "glm".data then some model_id
  else if provider == "gemini".data then some model_id
  else if provider == "github".data then some model_id
  else cfg.claudeCliModel

/-- The model-selection prefix of `create_provider`: alias resolution
(applied once), the provider/model split, and the model id the provider is
constructed with (`none` = the unknown-provider error). -/
def select_provider (model : Str) (cfg : ProvidersConfig) : Str × Option Str :=
  let resolved := resolve_model_alias model
  let pm := parse_provider_model resolved cfg
  (pm.1, effective_model_id cfg pm.1 pm.2)

end Providers

/-!
## memory_get tool  (crates/core/src/agent/tools/mod.rs)

`MemoryGetTool::resolve_path` joins the three workspace-relative shapes
onto the workspace directory and tilde-expands everything else; `execute`
then reads the resolved file directly — the tool consults no
allowed-directories, sandbox or protected-file policy, so the embedding
has no such parameters and the output depends only on the one resolved
file's content.
-/

namespace MemoryGet

/-- Rust `shellexpand::tilde` (the used fragment: a leading `~` or `~/`
expands to the home directory; other inputs pass through). -/
def tilde (home path : Str) : Str :=
  if path == "~".data then home
  else if RustStr.startsWith path "~/".data then home ++ path.drop 1
  else path

/-- `PathBuf::join` for the relative paths this tool joins. -/
def joinPath (base rel : Str) : Str := base ++ '/' :: rel

/-- `MemoryGetTool::resolve_path`. -/
def resolve_path (workspace home path : Str) : Str :=
  if RustStr.startsWith path "memory/".data || path == "MEMORY.md".data ||
      path == "HEARTBEAT.md".data then
    joinPath workspace path
  else
    tilde home path

/-- Right-aligned width-4 line number (`format!("{:4}\t…")`). -/
def pad4 (n : Nat) : Str :=
  let d := RustStr.natToStr n
  List.replicate (4 - d.length) ' ' ++ d

/-- `MemoryGetTool::execute`: resolve the path, read the file (a missing
file yields the "File not found" text), slice the 1-indexed line range and
prepend the header.  The filesystem is a map from resolved path to file
content. -/
def executeGet (fs : Str → Option Str) (workspace home path : Str)
    (fromArg linesArg : Option Nat) : Str :=
  let fromN := max (fromArg.getD 1) 1
  let lines_count := linesArg.getD 50
  let resolved := resolve_path workspace home path
  match fs resolved with
  | none => "File not found: ".data ++ path
  | some content =>
    let lines := SpawnAgent.rustLines content
    let total_lines := lines.length
    let start := min (fromN - 1) total_lines
    let e := min (start + lines_count) total_lines
    if start ≥ total_lines then
      "Line ".data ++ RustStr.natToStr fromN ++ " is past end of file (".data ++
        RustStr.natToStr total_lines ++ " lines)".data
    else
      let selected := ((lines.drop start).take (e - start)).enum.map
        fun p => pad4 (start + p.1 + 1) ++ '\t' :: p.2
      "# ".data ++ path ++ " (lines ".data ++ RustStr.natToStr (start + 1) ++
        "-".data ++ RustStr.natToStr e ++ " of ".data ++
        RustStr.natToStr total_lines ++ ")\n".data ++
        List.intercalate "\n".data selected

end MemoryGet

/-!
## write_file / edit_file tools  (crates/cli/src/tools.rs)

`WriteFileTool::execute` and `EditFileTool::execute` run the same guard
chain: resolve the path (symlinks fully resolved), check the compiled
filter, require an allowed-directories prefix (auditing `path_denied` on
failure), check the sandbox deny list, check the protected-file list
(auditing `write_blocked` on failure), and only then touch the file.

The helpers the chain calls are declared in crates that are not under
`src/` and are modelled from the spec:
- `resolve_real_path` (tilde expansion + canonicalization resolving all
  symlinks) is an abstract resolution map from raw path strings to
  canonical component paths, `none` meaning resolution failed;
- `check_path_allowed` requires, when the allowed list is non-empty, that
  the canonical path start with some allowed entry;
- `localgpt_sandbox::policy::is_path_denied` holds when the canonical path
  lies under a deny-listed directory;
- `security::is_path_protected` is an abstract predicate (hardcoded
  filenames/suffixes plus signed-policy paths);
- the compiled tool filter is an abstract predicate on the resolved path.
-/

namespace FileTools

/-- A canonical absolute path, as its list of components. -/
abbrev CPath := List Str

/-- Rendering of a canonical path back to a string (for messages). -/
def renderPath (p : CPath) : Str := '/' :: List.intercalate "/".data p

/-- `security::AuditAction` (the two actions these tools write). -/
inductive AuditAction where
  | writeBlocked
  | pathDenied
deriving DecidableEq, Repr

/-- One audit-log entry (`security::append_audit_entry_with_detail`). -/
structure AuditEntry where
  action : AuditAction
  source : Str
  detail : Str
deriving DecidableEq, Repr

/-- Modelled from the spec: `check_path_allowed` (crates/core
`agent/path_utils`, not under src/) — with a non-empty
`allowed_directories` list the canonical path must start with the
canonical form of some entry; an empty list allows everything. -/
def check_path_allowed (p : CPath) (allowed : List CPath) : Bool :=
  allowed.isEmpty || allowed.any fun a => a.isPrefixOf p

/-- Modelled from the spec: `localgpt_sandbox::policy::is_path_denied`
(not under src/) — the canonical path lies under a deny-listed
directory. -/
def is_path_denied (p : CPath) (deny : List CPath) : Bool :=
  deny.any fun a => a.isPrefixOf p

/-- Modelled from the spec: the environment of the file tools.
`resolve` embeds `resolve_real_path` (tilde expansion followed by
canonicalization that resolves every symlink; `none` = resolution error);
`is_path_protected` embeds `security::is_path_protected`; `filterOk`
embeds `CompiledToolFilter::check` on the resolved path (true = pass). -/
structure ToolEnv where
  resolve : Str → Option CPath
  allowed_directories : List CPath
  sandboxDeny : List CPath
  is_path_protected : CPath → Bool
  filterOk : CPath → Bool

/-- Filesystem-and-audit state touched by the tools. -/
structure FsState where
  files : List (CPath × Str)
  audit : List AuditEntry
deriving DecidableEq, Repr

/-- File lookup (`fs::read_to_string`). -/
def lookupFile (files : List (CPath × Str)) (p : CPath) : Option Str :=
  (files.find? fun kv => kv.1 == p).map (·.2)

/-- File write (`fs::write`: create or overwrite). -/
def storeFile (files : List (CPath × Str)) (p : CPath) (content : Str) :
    List (CPath × Str) :=
  if (files.find? fun kv => kv.1 == p).isSome then
    files.map fun kv => if kv.1 == p then (p, content) else kv
  else
    files ++ [(p, content)]

/-- `WriteFileTool::execute`: the guard chain, then the write. -/
def write_file (env : ToolEnv) (st : FsState) (path content : Str) :
    Except Str Str × FsState :=
  match env.resolve path with
  | none => (.error "failed to resolve path".data, st)
  | some real_path =>
    if env.filterOk real_path = false then
      (.error "Input blocked by security filter".data, st)
    else if check_path_allowed real_path env.allowed_directories = false then
      (.error "path outside allowed directories".data,
       { st with audit := st.audit ++
          [⟨.pathDenied, "tool:write_file".data,
            "write_file denied: ".data ++ renderPath real_path⟩] })
    else if is_path_denied real_path env.sandboxDeny then
      (.error ("Cannot write to denied directory: ".data ++ renderPath real_path), st)
    else if env.is_path_protected real_path then
      (.error ("Cannot write to protected file: ".data ++ renderPath real_path),
       { st with audit := st.audit ++
          [⟨.writeBlocked, "tool:write_file".data,
            "Agent attempted write to ".data ++ renderPath real_path⟩] })
    else
      (.ok ("Successfully wrote ".data ++ RustStr.natToStr (RustStr.byteLen content) ++
        " bytes to ".data ++ renderPath real_path),
       { st with files := storeFile st.files real_path content })

/-- `EditFileTool::execute`: the same guard chain, then the read-replace-
write step. -/
def edit_file (env : ToolEnv) (st : FsState)
    (path old_string new_string : Str) (replace_all : Bool) :
    Except Str Str × FsState :=
  match env.resolve path with
  | none => (.error "failed to resolve path".data, st)
  | some real_path =>
    if env.filterOk real_path = false then
      (.error "Input blocked by security filter".data, st)
    else if check_path_allowed real_path env.allowed_directories = false then
      (.error "path outside allowed directories".data,
       { st with audit := st.audit ++
          [⟨.pathDenied, "tool:edit_file".data,
            "edit_file denied: ".data ++ renderPath real_path⟩] })
    else if is_path_denied real_path env.sandboxDeny then
      (.error ("Cannot edit file in denied directory: ".data ++ renderPath real_path), st)
    else if env.is_path_protected real_path then
      (.error ("Cannot edit protected file: ".data ++ renderPath real_path),
       { st with audit := st.audit ++
          [⟨.writeBlocked, "tool:edit_file".data,
            "Agent attempted edit to ".data ++ renderPath real_path⟩] })
    else
      match lookupFile st.files real_path with
      | none => (.error "file not found".data, st)
      | some content =>
        if replace_all then
          let newFiles :=
            storeFile st.files real_path
              (RustStr.replaceAll content old_string new_string)
          (.ok ("Replaced ".data ++
            RustStr.natToStr (RustStr.countOcc content old_string) ++
            " occurrence(s) in ".data ++ renderPath real_path),
           { st with files := newFiles })
        else if RustStr.containsSub content old_string then
          let newFiles :=
            storeFile st.files real_path
              (RustStr.replaceFirst old_string new_string content)
          (.ok ("Replaced 1 occurrence(s) in ".data ++ renderPath real_path),
           { st with files := newFiles })
        else
          (.error "old_string not found in file".data, st)

end FileTools

/-!
## web_fetch tool  (crates/core/src/agent/tools/mod.rs)

`validate_web_fetch_url` checks the scheme, the blocked-hostname list, and
(for IP-literal hosts directly, for names via DNS) that no resolved address
is private; `WebFetchTool::fetch_with_validated_redirects` follows at most
`MAX_WEB_FETCH_REDIRECTS` redirects, validating every redirect target
before requesting it.  URL parsing/joining, DNS and the network are
environment functions; the visited list returned by the embedding records
every URL a request was sent to.  IPv6 literal hosts appear bracketed in
`host_str()` and fail `parse::<IpAddr>()` in the source just as they fail
the dotted-quad parse here, falling through to the DNS path.
-/

namespace WebFetch

/-- `std::net::IpAddr`. -/
inductive IpAddr where
  | v4 (a b c d : Nat)
  | v6 (s0 s1 s2 s3 s4 s5 s6 s7 : Nat)
deriving DecidableEq, Repr

/-- `is_private_ip`, mirroring the Rust std predicates it calls:
loopback, private (10/8, 172.16/12, 192.168/16), link-local (169.254/16)
and unspecified for v4; loopback, unspecified, fe80::/10 and fc00::/7 for
v6. -/
def is_private_ip : IpAddr → Bool
  | .v4 a b c d =>
    a == 127 ||
    (a == 10 || (a == 172 && (16 ≤ b && b ≤ 31)) || (a == 192 && b == 168)) ||
    (a == 169 && b == 254) ||
    (a == 0 && b == 0 && c == 0 && d == 0)
  | .v6 s0 s1 s2 s3 s4 s5 s6 s7 =>
    (s0 == 0 && s1 == 0 && s2 == 0 && s3 == 0 && s4 == 0 && s5 == 0 &&
      s6 == 0 && s7 == 1) ||
    (s0 == 0 && s1 == 0 && s2 == 0 && s3 == 0 && s4 == 0 && s5 == 0 &&
      s6 == 0 && s7 == 0) ||
    (s0 &&& 0xffc0) == 0xfe80 ||
    (s0 &&& 0xfe00) == 0xfc00

/-- `is_blocked_hostname`. -/
def is_blocked_hostname (host : Str) : Bool :=
  let h := RustStr.lower host
  (h == "localhost".data || h == "metadata.google.internal".data ||
    h == "169.254.169.254".data) ||
  ([".local".data, ".internal".data, ".localhost".data].any fun tld =>
    RustStr.endsWith h tld)

/-- One octet of a dotted-quad IPv4 literal (decimal, 0–255, no leading
zeros — the Rust std parser's rules). -/
def parseOctet (s : Str) : Option Nat :=
  if s.isEmpty then none
  else if ¬(s.all fun c => c.isDigit) then none
  else if 1 < s.length ∧ s.head? = some '0' then none
  else
    let n := s.foldl (fun acc c => acc * 10 + (c.toNat - 48)) 0
    if n ≤ 255 then some n else none

/-- `host.parse::<IpAddr>()` for the dotted-quad form. -/
def parse_ipv4 (host : Str) : Option IpAddr :=
  match RustStr.splitChar '.' host with
  | [a, b, c, d] =>
    match parseOctet a, parseOctet b, parseOctet c, parseOctet d with
    | some a, some b, some c, some d => some (.v4 a b c d)
    | _, _, _, _ => none
  | _ => none

/-- A parsed `reqwest::Url`, restricted to the fields the validator and
redirect loop read. -/
structure Url where
  scheme : Str
  host : Option Str
  port : Option Nat
  path : Str
deriving DecidableEq, Repr

/-- `port_or_known_default().unwrap_or(443)` (the scheme is http or https
by the time this is read). -/
def port_or_known_default (u : Url) : Nat :=
  match u.port with
  | some p => p
  | none => if u.scheme == "http".data then 80 else 443

/-- An HTTP response, restricted to what the redirect loop reads. -/
structure HttpResponse where
  status : Nat
  location : Option Str
deriving DecidableEq, Repr

/-- `validate_web_fetch_url` applied to an already-parsed URL; `dns` is
`tokio::net::lookup_host` (`none` = resolution error). -/
def validate_parsed (dns : Str → Nat → Option (List IpAddr)) (u : Url) :
    Except Str Url :=
  if ¬(u.scheme == "http".data || u.scheme == "https".data) then
    .error "Only http/https URLs are allowed".data
  else
    match u.host with
    | none => .error "No host in URL".data
    | some host =>
      if is_blocked_hostname host then
        .error ("Blocked hostname: ".data ++ host)
      else
        match parse_ipv4 host with
        | some ip =>
          if is_private_ip ip then
            .error "URL resolves to private IP - blocked for security".data
          else .ok u
        | none =>
          match dns host (port_or_known_default u) with
          | none => .error "DNS lookup failed".data
          | some addrs =>
            if addrs.any is_private_ip then
              .error "URL resolves to private IP - blocked for security".data
            else .ok u

/-- `validate_web_fetch_url` on the raw URL string (`parse` embeds
`reqwest::Url::parse`; `none` = parse error). -/
def validate_web_fetch_url (parse : Str → Option Url)
    (dns : Str → Nat → Option (List IpAddr)) (urlStr : Str) : Except Str Url :=
  match parse urlStr with
  | none => .error "invalid URL".data
  | some u => validate_parsed dns u

/-- `MAX_WEB_FETCH_REDIRECTS`. -/
def MAX_WEB_FETCH_REDIRECTS : Nat := 10

/-- `should_follow_redirect`. -/
def should_follow_redirect (status : Nat) : Bool :=
  status == 301 || status == 302 || status == 303 || status == 307 || status == 308

/-- `resolve_and_validate_redirect_target` (`join` embeds `Url::join`;
`none` = invalid redirect target). -/
def resolve_and_validate_redirect_target (dns : Str → Nat → Option (List IpAddr))
    (join : Url → Str → Option Url) (current : Url) (location : Str) :
    Except Str Url :=
  match join current location with
  | none => .error "Invalid redirect target".data
  | some candidate => validate_parsed dns candidate

/-- The loop of `fetch_with_validated_redirects`: `fuel` is the number of
redirects still allowed (`MAX_WEB_FETCH_REDIRECTS - redirect_count`); when
a redirect arrives with no fuel left the loop bails with the
too-many-redirects error.  Returns the final response, the final URL, and
the list of every URL a request was sent to. -/
def fetchGo (dns : Str → Nat → Option (List IpAddr))
    (net : Url → Option HttpResponse) (join : Url → Str → Option Url) :
    Nat → Url → Except Str (HttpResponse × Url × List Url)
  | fuel, current =>
    match net current with
    | none => .error "request failed".data
    | some resp =>
      if ¬should_follow_redirect resp.status then .ok (resp, current, [current])
      else
        match fuel with
        | 0 => .error "Too many redirects".data
        | f + 1 =>
          match resp.location with
          | none => .error "Redirect response missing Location header".data
          | some loc =>
            match resolve_and_validate_redirect_target dns join current loc with
            | .error e => .error e
            | .ok next =>
              match fetchGo dns net join f next with
              | .error e => .error e
              | .ok (r, fin, visited) => .ok (r, fin, current :: visited)

/-- `WebFetchTool::fetch_with_validated_redirects`. -/
def fetch_with_validated_redirects (dns : Str → Nat → Option (List IpAddr))
    (net : Url → Option HttpResponse) (join : Url → Str → Option Url)
    (u : Url) : Except Str (HttpResponse × Url × List Url) :=
  fetchGo dns net join MAX_WEB_FETCH_REDIRECTS u

/-- The guard-then-fetch part of `WebFetchTool::execute`: the compiled
filter check on the raw URL, then `validate_web_fetch_url`, then the
redirect-validating fetch. -/
def executeFetch (parse : Str → Option Url) (filterOk : Str → Bool)
    (dns : Str → Nat → Option (List IpAddr)) (net : Url → Option HttpResponse)
    (join : Url → Str → Option Url) (urlStr : Str) :
    Except Str (HttpResponse × Url × List Url) :=
  if ¬filterOk urlStr then .error "Input blocked by security filter".data
  else
    match validate_web_fetch_url parse dns urlStr with
    | .error e => .error e
    | .ok parsed => fetch_with_validated_redirects dns net join parsed

end WebFetch

-- ===== THEOREMS =====

/-- Sanity check that the embedding evaluates: one retryable failure then a
success consults exactly the first two slots and cools down the first. -/
example :
    Failover.failoverCall
      [⟨.err "Error: 429 Too Many Requests".data, 5, 0⟩, ⟨.ok "hi".data, 6, 0⟩] =
      (.ok "hi".data,
       [⟨.err "Error: 429 Too Many Requests".data, 5, 65⟩, ⟨.ok "hi".data, 6, 0⟩],
       [true, true]) := by rfl

namespace Failover

/-- The consulted mask has the same length as the slot list. -/
theorem callGo_mask_length (total : Nat) (slots : List PSlot) (le : Option Str) :
    (callGo total slots le).2.2.length = slots.length := by
  induction slots generalizing le with
  | nil => simp [callGo]
  | cons s rest ih =>
    simp only [callGo]
    split
    · simp [ih le]
    · split
      · simp
      · split
        · rename_i e _ hr
          simp [ih (some e)]
        · simp

/-- A slot whose cooldown has not elapsed is never consulted. -/
theorem callGo_skips_cooldown (total : Nat) (slots : List PSlot) (le : Option Str)
    (k : Nat) (s : PSlot) (hk : slots[k]? = some s) (hc : is_in_cooldown s = true) :
    (callGo total slots le).2.2[k]? = some false := by
  induction slots generalizing le k with
  | nil => simp at hk
  | cons hd rest ih =>
    have hzero : hd = s → is_in_cooldown hd = true := fun h => h ▸ hc
    simp only [callGo]
    split
    · cases k with
      | zero => simp
      | succ k =>
        simp only [List.getElem?_cons_succ] at hk
        simpa using ih le k hk
    · rename_i hnc
      have hksucc : ∀ k' : Nat, k = k' + 1 → rest[k']? = some s := by
        intro k' hk'
        subst hk'
        simpa using hk
      have hknz : k ≠ 0 := by
        intro h
        subst h
        simp only [List.getElem?_cons_zero, Option.some.injEq] at hk
        exact hnc (hzero hk)
      obtain ⟨k', rfl⟩ : ∃ k', k = k' + 1 := ⟨k - 1, by omega⟩
      have hk' := hksucc k' rfl
      have hlen : k' < rest.length := by
        by_contra h
        rw [List.getElem?_eq_none (by omega)] at hk'
        simp at hk'
      split
      · simp [List.getElem?_replicate, hlen]
      · split
        · simpa using ih _ k' hk'
        · simp [List.getElem?_replicate, hlen]

/-- Step equation: a slot in cooldown is skipped. -/
theorem callGo_cons_skip (total : Nat) (s : PSlot) (rest : List PSlot) (le : Option Str)
    (h : is_in_cooldown s = true) :
    callGo total (s :: rest) le =
      ((callGo total rest le).1, s :: (callGo total rest le).2.1,
        false :: (callGo total rest le).2.2) := by
  simp [callGo, h]

/-- Step equation: a slot not in cooldown that succeeds ends the loop. -/
theorem callGo_cons_ok (total : Nat) (s : PSlot) (rest : List PSlot) (le : Option Str)
    (v : Str) (h : is_in_cooldown s = false) (hw : s.outcome = .ok v) :
    callGo total (s :: rest) le =
      (.ok v, s :: rest, true :: List.replicate rest.length false) := by
  simp [callGo, h, hw]

/-- Step equation: a retryable failure cools the slot down and advances. -/
theorem callGo_cons_retry (total : Nat) (s : PSlot) (rest : List PSlot) (le : Option Str)
    (e : Str) (h : is_in_cooldown s = false) (hw : s.outcome = .err e)
    (hr : is_retryable e = true) :
    callGo total (s :: rest) le =
      ((callGo total rest (some e)).1, set_cooldown s :: (callGo total rest (some e)).2.1,
        true :: (callGo total rest (some e)).2.2) := by
  simp [callGo, h, hw, hr]

/-- Step equation: a non-retryable failure ends the loop immediately. -/
theorem callGo_cons_fatal (total : Nat) (s : PSlot) (rest : List PSlot) (le : Option Str)
    (e : Str) (h : is_in_cooldown s = false) (hw : s.outcome = .err e)
    (hr : is_retryable e = false) :
    callGo total (s :: rest) le =
      (.error e, s :: rest, true :: List.replicate rest.length false) := by
  simp [callGo, h, hw, hr]

/-- On success, the successful slot is the last consulted one. -/
theorem callGo_success (total : Nat) (slots : List PSlot) (le : Option Str) (v : Str)
    (hok : (callGo total slots le).1 = .ok v) :
    ∃ (k : Nat) (s : PSlot), slots[k]? = some s ∧ s.outcome = .ok v ∧
      (callGo total slots le).2.2[k]? = some true ∧
      ∀ j, k < j → (callGo total slots le).2.2[j]? ≠ some true := by
  induction slots generalizing le with
  | nil => simp [callGo] at hok
  | cons hd rest ih =>
    by_cases hcd : is_in_cooldown hd = true
    · rw [callGo_cons_skip total hd rest le hcd] at hok ⊢
      obtain ⟨k, s, hk, hout, hmask, hafter⟩ := ih le hok
      refine ⟨k + 1, s, by simpa using hk, hout, by simpa using hmask, ?_⟩
      intro j hj
      match j, hj with
      | j + 1, hj => simpa using hafter j (by omega)
    · rw [Bool.not_eq_true] at hcd
      rcases hw : hd.outcome with w | e
      · rw [callGo_cons_ok total hd rest le w hcd hw] at hok ⊢
        simp only [Except.ok.injEq] at hok
        subst hok
        refine ⟨0, hd, by simp, hw, by simp, ?_⟩
        intro j hj
        match j, hj with
        | j + 1, _ =>
          simp only [List.getElem?_cons_succ, List.getElem?_replicate]
          split <;> simp
      · by_cases hr : is_retryable e = true
        · rw [callGo_cons_retry total hd rest le e hcd hw hr] at hok ⊢
          obtain ⟨k, s, hk, hout, hmask, hafter⟩ := ih (some e) hok
          refine ⟨k + 1, s, by simpa using hk, hout, by simpa using hmask, ?_⟩
          intro j hj
          match j, hj with
          | j + 1, hj => simpa using hafter j (by omega)
        · rw [Bool.not_eq_true] at hr
          rw [callGo_cons_fatal total hd rest le e hcd hw hr] at hok
          simp at hok

/-- A consulted slot that failed retryably has its cooldown set to the
failure time plus `COOLDOWN_SECS` in the updated slot list. -/
theorem callGo_sets_cooldown (total : Nat) (slots : List PSlot) (le : Option Str)
    (k : Nat) (s : PSlot) (e : Str) (hk : slots[k]? = some s)
    (hmask : (callGo total slots le).2.2[k]? = some true)
    (hout : s.outcome = .err e) (hr : is_retryable e = true) :
    (callGo total slots le).2.1[k]? = some (set_cooldown s) := by
  induction slots generalizing le k with
  | nil => simp at hk
  | cons hd rest ih =>
    by_cases hcd : is_in_cooldown hd = true
    · rw [callGo_cons_skip total hd rest le hcd] at hmask ⊢
      cases k with
      | zero => simp at hmask
      | succ k =>
        simp only [List.getElem?_cons_succ] at hk hmask ⊢
        exact ih le k hk hmask
    · rw [Bool.not_eq_true] at hcd
      rcases hw : hd.outcome with w | e'
      · rw [callGo_cons_ok total hd rest le w hcd hw] at hmask
        cases k with
        | zero =>
          simp only [List.getElem?_cons_zero, Option.some.injEq] at hk
          subst hk
          rw [hw] at hout
          simp at hout
        | succ k =>
          simp only [List.getElem?_cons_succ, List.getElem?_replicate] at hmask
          split at hmask <;> simp at hmask
      · by_cases hr' : is_retryable e' = true
        · rw [callGo_cons_retry total hd rest le e' hcd hw hr'] at hmask ⊢
          cases k with
          | zero =>
            simp only [List.getElem?_cons_zero, Option.some.injEq] at hk
            subst hk
            simp
          | succ k =>
            simp only [List.getElem?_cons_succ] at hk hmask ⊢
            exact ih (some e') k hk hmask
        · rw [Bool.not_eq_true] at hr'
          cases k with
          | zero =>
            simp only [List.getElem?_cons_zero, Option.some.injEq] at hk
            subst hk
            rw [hw] at hout
            simp only [CallOutcome.err.injEq] at hout
            subst hout
            rw [hr'] at hr
            simp at hr
          | succ k =>
            rw [callGo_cons_fatal total hd rest le e' hcd hw hr'] at hmask
            simp only [List.getElem?_cons_succ, List.getElem?_replicate] at hmask
            split at hmask <;> simp at hmask

/-- When every slot is either in cooldown or fails retryably, the call fails
with the error of the last consulted slot, or with the synthetic message
(here: `le.getD (allProvidersMsg total)`) when no slot was consulted. -/
theorem callGo_exhaustion (total : Nat) (slots : List PSlot) (le : Option Str)
    (hall : ∀ s ∈ slots, is_in_cooldown s = true ∨
      ∃ e, s.outcome = .err e ∧ is_retryable e = true) :
    ∃ m, (callGo total slots le).1 = .error m ∧
      ((∃ (k : Nat) (s : PSlot), slots[k]? = some s ∧ s.outcome = .err m ∧
          (callGo total slots le).2.2[k]? = some true ∧
          ∀ j, k < j → (callGo total slots le).2.2[j]? ≠ some true) ∨
        ((∀ b ∈ (callGo total slots le).2.2, b = false) ∧
          m = le.getD (allProvidersMsg total))) := by
  induction slots generalizing le with
  | nil => exact ⟨le.getD (allProvidersMsg total), by simp [callGo]⟩
  | cons hd rest ih =>
    have hhd := hall hd (by simp)
    have hrest : ∀ s ∈ rest, is_in_cooldown s = true ∨
        ∃ e, s.outcome = .err e ∧ is_retryable e = true :=
      fun s hs => hall s (by simp [hs])
    by_cases hcd : is_in_cooldown hd = true
    · rw [callGo_cons_skip total hd rest le hcd]
      obtain ⟨m, hm, hcase⟩ := ih le hrest
      refine ⟨m, hm, ?_⟩
      rcases hcase with ⟨k, s, hk, hout, hmask, hafter⟩ | ⟨hfalse, hm'⟩
      · refine Or.inl ⟨k + 1, s, by simpa using hk, hout, by simpa using hmask, ?_⟩
        intro j hj
        match j, hj with
        | j + 1, hj => simpa using hafter j (by omega)
      · refine Or.inr ⟨?_, hm'⟩
        intro b hb
        simp only [List.mem_cons] at hb
        rcases hb with rfl | hb
        · rfl
        · exact hfalse b hb
    · rw [Bool.not_eq_true] at hcd
      rcases hhd with hcd' | ⟨e, hout, hr⟩
      · rw [hcd] at hcd'
        simp at hcd'
      · rw [callGo_cons_retry total hd rest le e hcd hout hr]
        obtain ⟨m, hm, hcase⟩ := ih (some e) hrest
        refine ⟨m, hm, ?_⟩
        rcases hcase with ⟨k, s, hk, hout2, hmask, hafter⟩ | ⟨hfalse, hm'⟩
        · refine Or.inl ⟨k + 1, s, by simpa using hk, hout2, by simpa using hmask, ?_⟩
          intro j hj
          match j, hj with
          | j + 1, hj => simpa using hafter j (by omega)
        · refine Or.inl ⟨0, hd, by simp, ?_, by simp, ?_⟩
          · simp only [Option.getD] at hm'
            subst hm'
            exact hout
          · intro j hj
            match j, hj with
            | j + 1, _ =>
              simp only [List.getElem?_cons_succ]
              intro hcontra
              have hmem := List.getElem?_mem hcontra
              have : (true : Bool) = false := hfalse true hmem
              simp at this

end Failover

/-- Claim C1: For every FailoverProvider call (chat, chat_stream, or
summarize) over its ordered provider list: providers are tried in order and
any provider whose cooldown has not elapsed is skipped without being
consulted; the first successful provider's result is returned and no
provider after it is consulted; a retryable error puts the failing provider
into a 60-second cooldown measured from the moment of failure and advances
to the next provider; and if every provider is skipped or fails retryably,
the result is the last retryable error or, when none was recorded, the
synthetic "all providers in cooldown or unavailable" error. -/
theorem failover_skip_success_cooldown_exhaustion (slots : List Failover.PSlot) :
    (∀ (k : Nat) (s : Failover.PSlot), slots[k]? = some s →
      Failover.is_in_cooldown s = true →
      (Failover.failoverCall slots).2.2[k]? = some false) ∧
    (∀ v : Str, (Failover.failoverCall slots).1 = .ok v →
      ∃ (k : Nat) (s : Failover.PSlot), slots[k]? = some s ∧ s.outcome = .ok v ∧
        (Failover.failoverCall slots).2.2[k]? = some true ∧
        ∀ j, k < j → (Failover.failoverCall slots).2.2[j]? ≠ some true) ∧
    (∀ (k : Nat) (s : Failover.PSlot) (e : Str), slots[k]? = some s →
      (Failover.failoverCall slots).2.2[k]? = some true →
      s.outcome = .err e → Failover.is_retryable e = true →
      (Failover.failoverCall slots).2.1[k]? =
        some { s with cooldown := s.time + Failover.COOLDOWN_SECS }) ∧
    ((∀ s ∈ slots, Failover.is_in_cooldown s = true ∨
        ∃ e, s.outcome = .err e ∧ Failover.is_retryable e = true) →
      ∃ m, (Failover.failoverCall slots).1 = .error m ∧
        ((∃ (k : Nat) (s : Failover.PSlot), slots[k]? = some s ∧
            s.outcome = .err m ∧
            (Failover.failoverCall slots).2.2[k]? = some true ∧
            ∀ j, k < j → (Failover.failoverCall slots).2.2[j]? ≠ some true) ∨
          ((∀ b ∈ (Failover.failoverCall slots).2.2, b = false) ∧
            m = Failover.allProvidersMsg slots.length))) := by
  refine ⟨?_, ?_, ?_, ?_⟩
  · intro k s hk hc
    exact Failover.callGo_skips_cooldown slots.length slots none k s hk hc
  · intro v hok
    exact Failover.callGo_success slots.length slots none v hok
  · intro k s e hk hmask hout hr
    exact Failover.callGo_sets_cooldown slots.length slots none k s e hk hmask hout hr
  · intro hall
    simpa using Failover.callGo_exhaustion slots.length slots none hall

/-- Witness for C1 at a concrete input: with slot 0 in cooldown, slot 1
failing retryably and slot 2 succeeding, the call skips slot 0, cools down
slot 1 and returns slot 2's result as the last consulted provider. -/
theorem failover_skip_success_cooldown_exhaustion_witness :
    ∃ (k : Nat) (s : Failover.PSlot),
      ([⟨.err "x".data, 3, 10⟩, ⟨.err "Request timed out".data, 4, 0⟩,
          ⟨.ok "hi".data, 5, 0⟩] : List Failover.PSlot)[k]? = some s ∧
      s.outcome = .ok "hi".data ∧
      (Failover.failoverCall
        [⟨.err "x".data, 3, 10⟩, ⟨.err "Request timed out".data, 4, 0⟩,
          ⟨.ok "hi".data, 5, 0⟩]).2.2[k]? = some true ∧
      ∀ j, k < j →
        (Failover.failoverCall
          [⟨.err "x".data, 3, 10⟩, ⟨.err "Request timed out".data, 4, 0⟩,
            ⟨.ok "hi".data, 5, 0⟩]).2.2[j]? ≠ some true :=
  (failover_skip_success_cooldown_exhaustion
    [⟨.err "x".data, 3, 10⟩, ⟨.err "Request timed out".data, 4, 0⟩,
      ⟨.ok "hi".data, 5, 0⟩]).2.1 "hi".data (by rfl)

/-- Counterexample to claim C4 as stated: the error text "Request timed out"
contains none of the nine substrings the claim lists (in particular it does
not contain "timeout"), so the claim classifies it as non-retryable, yet
`is_retryable` returns true for it. -/
theorem failover_retryable_counterexample :
    Failover.is_retryable "Request timed out".data = true ∧
    ∀ pat ∈ ["429".data, "rate limit".data, "500".data, "502".data, "503".data,
        "timeout".data, "connection refused".data, "connection reset".data,
        "connection closed".data],
      RustStr.containsSub "Request timed out".data pat = false := by
  constructor
  · decide
  · decide

/-- Claim C4 (amended): the failover classifier treats an error as retryable
exactly when its lowercased text contains one of: 429, rate limit,
ratelimit, 500, 502, 503, timeout, connection refused, connection reset,
connection closed, or timed out; any other error text (including 400 and
401 errors) is non-retryable and is returned immediately, without
consulting any further provider and without setting a cooldown. -/
theorem failover_retryable_classification (msg : Str) (s : Failover.PSlot)
    (rest : List Failover.PSlot) :
    (Failover.is_retryable msg =
      Failover.retryablePatterns.any fun pat =>
        RustStr.containsSub (RustStr.lower msg) pat) ∧
    (Failover.is_in_cooldown s = false → s.outcome = .err msg →
      Failover.is_retryable msg = false →
      Failover.failoverCall (s :: rest) =
        (.error msg, s :: rest, true :: List.replicate rest.length false)) := by
  constructor
  · simp [Failover.is_retryable, Failover.retryablePatterns, List.any_cons, List.any_nil,
      Bool.or_assoc]
  · intro hcd hout hnr
    exact Failover.callGo_cons_fatal (s :: rest).length s rest none msg hcd hout hnr

/-- Witness for C4 (amended) at a concrete input: a 401 error at the first
provider is classified non-retryable and ends the call immediately with the
slot list (hence its cooldown) unchanged. -/
theorem failover_retryable_classification_witness :
    Failover.failoverCall
        [⟨.err "Error: 401 Unauthorized".data, 2, 0⟩, ⟨.ok "hi".data, 3, 0⟩] =
      (.error "Error: 401 Unauthorized".data,
        [⟨.err "Error: 401 Unauthorized".data, 2, 0⟩, ⟨.ok "hi".data, 3, 0⟩],
        [true, false]) := by
  have h := (failover_retryable_classification "Error: 401 Unauthorized".data
    ⟨.err "Error: 401 Unauthorized".data, 2, 0⟩ [⟨.ok "hi".data, 3, 0⟩]).2
    (by decide) (by rfl) (by decide)
  simpa using h

/-- `containsSub` finds exactly the contiguous-sublist occurrences. -/
theorem containsSub_iff (s pat : Str) :
    RustStr.containsSub s pat = true ↔ ∃ a b, s = a ++ pat ++ b := by
  induction s with
  | nil =>
    simp only [RustStr.containsSub, List.isEmpty_iff]
    constructor
    · intro h
      exact ⟨[], [], by simp [h]⟩
    · rintro ⟨a, b, h⟩
      have := h.symm
      simp only [List.append_eq_nil] at this
      exact this.1.2
  | cons c t ih =>
    simp only [RustStr.containsSub, Bool.or_eq_true]
    constructor
    · rintro (hp | hc)
      · rw [List.isPrefixOf_iff_prefix] at hp
        obtain ⟨b, hb⟩ := hp
        exact ⟨[], b, by simp [hb.symm]⟩
      · obtain ⟨a, b, hab⟩ := ih.mp hc
        exact ⟨c :: a, b, by simp [hab]⟩
    · rintro ⟨a, b, hab⟩
      cases a with
      | nil =>
        left
        rw [List.isPrefixOf_iff_prefix]
        exact ⟨b, by simpa using hab.symm⟩
      | cons x a' =>
        right
        simp only [List.cons_append, List.cons.injEq] at hab
        exact ih.mpr ⟨a', b, hab.2⟩

/-- Counterexample to claim C8 as stated: a response that merely contains
the sentinel (without being equal to it) is still treated as a sentinel
match by the code. -/
theorem sentinel_exact_match_counterexample :
    SystemPrompt.is_silent_reply "Here is my answer. NO_REPLY".data = true ∧
    "Here is my answer. NO_REPLY".data ≠ "NO_REPLY".data ∧
    SystemPrompt.is_heartbeat_ok "HEARTBEAT_OK!".data = true ∧
    "HEARTBEAT_OK!".data ≠ "HEARTBEAT_OK".data := by
  refine ⟨by decide, by decide, by decide, by decide⟩

/-- Claim C8 (amended): a response is treated as the HEARTBEAT_OK sentinel
exactly when, after trimming, it equals HEARTBEAT_OK or contains
HEARTBEAT_OK with at most 30 extra bytes; it is treated as the NO_REPLY
sentinel exactly when, after trimming, it equals NO_REPLY or contains
NO_REPLY anywhere; in particular a response exactly equal to either
sentinel is always matched. -/
theorem sentinel_match_characterization (r : Str) :
    (SystemPrompt.is_heartbeat_ok r = true ↔
      RustStr.trim r = SystemPrompt.HEARTBEAT_OK_TOKEN ∨
      ((∃ a b, RustStr.trim r = a ++ SystemPrompt.HEARTBEAT_OK_TOKEN ++ b) ∧
        RustStr.byteLen (RustStr.trim r) ≤
          RustStr.byteLen SystemPrompt.HEARTBEAT_OK_TOKEN + 30)) ∧
    (SystemPrompt.is_silent_reply r = true ↔
      RustStr.trim r = SystemPrompt.SILENT_REPLY_TOKEN ∨
      ∃ a b, RustStr.trim r = a ++ SystemPrompt.SILENT_REPLY_TOKEN ++ b) ∧
    (r = SystemPrompt.HEARTBEAT_OK_TOKEN → SystemPrompt.is_heartbeat_ok r = true) ∧
    (r = SystemPrompt.SILENT_REPLY_TOKEN → SystemPrompt.is_silent_reply r = true) := by
  refine ⟨?_, ?_, ?_, ?_⟩
  · simp [SystemPrompt.is_heartbeat_ok, containsSub_iff, Bool.or_eq_true,
      Bool.and_eq_true, beq_iff_eq, decide_eq_true_eq]
  · simp [SystemPrompt.is_silent_reply, containsSub_iff, Bool.or_eq_true,
      beq_iff_eq]
  · rintro rfl
    decide
  · rintro rfl
    decide

/-- Witness for C8 (amended) at a concrete input: the exact sentinel
responses are matched, and a padded variant is matched because it contains
the token. -/
theorem sentinel_match_characterization_witness :
    SystemPrompt.is_heartbeat_ok "HEARTBEAT_OK".data = true ∧
    SystemPrompt.is_silent_reply "NO_REPLY".data = true ∧
    SystemPrompt.is_silent_reply "ok NO_REPLY".data = true :=
  ⟨(sentinel_match_characterization "HEARTBEAT_OK".data).2.2.1 (by rfl),
   (sentinel_match_characterization "NO_REPLY".data).2.2.2 (by rfl),
   (sentinel_match_characterization "ok NO_REPLY".data).2.1.mpr
     (Or.inr ⟨"ok ".data, [], by decide⟩)⟩

/-- Claim C5: For every heartbeat tick: if the TurnGate is busy, the
cross-process workspace lock cannot be acquired, or the gate cannot be
acquired after the busy check, the status is SkippedMayTry and no provider
call is made (the result does not depend on the agent response); if
HEARTBEAT.md is missing or empty, the status is Skipped; if the response
matches the HEARTBEAT_OK sentinel, the status is Ok; if the same response
text was already recorded within the prior 24 hours, the status is Skipped;
otherwise the status is Sent and the response hash is persisted. -/
theorem heartbeat_status_mapping (env : Heartbeat.HbEnv) :
    ((env.turnGateBusy = some true ∨ env.workspaceLockAcquired = false ∨
        (env.turnGateBusy.isSome = true ∧ env.gateAcquired = false)) →
      (Heartbeat.run_once_internal env).1.2 = .skippedMayTry ∧
      (Heartbeat.run_once_internal env).2 = none ∧
      ∀ r, Heartbeat.run_once_internal { env with agentResponse := r } =
        Heartbeat.run_once_internal env) ∧
    (env.turnGateBusy ≠ some true → env.workspaceLockAcquired = true →
      (env.turnGateBusy.isSome = true → env.gateAcquired = true) →
      (env.heartbeatFile = none ∨
        ∃ c, env.heartbeatFile = some c ∧ (RustStr.trim c).isEmpty = true) →
      (Heartbeat.run_once_internal env).1.2 = .skipped ∧
      (Heartbeat.run_once_internal env).2 = none) ∧
    (∀ c, env.turnGateBusy ≠ some true → env.workspaceLockAcquired = true →
      (env.turnGateBusy.isSome = true → env.gateAcquired = true) →
      env.heartbeatFile = some c → (RustStr.trim c).isEmpty = false →
      SystemPrompt.is_heartbeat_ok env.agentResponse = true →
      (Heartbeat.run_once_internal env).1 = (env.agentResponse, .ok) ∧
      (Heartbeat.run_once_internal env).2 = none) ∧
    (∀ c entry, env.turnGateBusy ≠ some true → env.workspaceLockAcquired = true →
      (env.turnGateBusy.isSome = true → env.gateAcquired = true) →
      env.heartbeatFile = some c → (RustStr.trim c).isEmpty = false →
      SystemPrompt.is_heartbeat_ok env.agentResponse = false →
      env.storeEntry = some entry →
      Heartbeat.is_duplicate_heartbeat entry env.agentResponse env.now = true →
      (Heartbeat.run_once_internal env).1 = (env.agentResponse, .skipped) ∧
      (Heartbeat.run_once_internal env).2 = none) ∧
    (∀ c, env.turnGateBusy ≠ some true → env.workspaceLockAcquired = true →
      (env.turnGateBusy.isSome = true → env.gateAcquired = true) →
      env.heartbeatFile = some c → (RustStr.trim c).isEmpty = false →
      SystemPrompt.is_heartbeat_ok env.agentResponse = false →
      (∀ entry, env.storeEntry = some entry →
        Heartbeat.is_duplicate_heartbeat entry env.agentResponse env.now = false) →
      (Heartbeat.run_once_internal env).1 = (env.agentResponse, .sent) ∧
      (Heartbeat.run_once_internal env).2 =
        some (Heartbeat.record_heartbeat env.agentResponse env.now)) := by
  obtain ⟨tg, lock, gate, file, resp, entry, now⟩ := env
  refine ⟨?_, ?_, ?_, ?_, ?_⟩
  · rintro (h | h | ⟨h1, h2⟩)
    · subst h
      exact ⟨rfl, rfl, fun r => rfl⟩
    · subst h
      rcases tg with _ | b
      · exact ⟨rfl, rfl, fun r => rfl⟩
      · rcases b with _ | _
        · exact ⟨rfl, rfl, fun r => rfl⟩
        · exact ⟨rfl, rfl, fun r => rfl⟩
    · rcases tg with _ | b
      · simp at h1
      · rcases b with _ | _
        · subst h2
          simp only [Heartbeat.run_once_internal]
          rcases lock with _ | _
          · exact ⟨rfl, rfl, fun r => rfl⟩
          · exact ⟨rfl, rfl, fun r => rfl⟩
        · exact ⟨rfl, rfl, fun r => rfl⟩
  · intro hbusy hlock hgate hfile
    subst hlock
    have hgok : gate = true ∨ tg = none := by
      rcases tg with _ | b
      · exact Or.inr rfl
      · exact Or.inl (hgate rfl)
    have htg : tg = none ∨ tg = some false := by
      rcases tg with _ | b
      · exact Or.inl rfl
      · rcases b with _ | _
        · exact Or.inr rfl
        · exact absurd rfl hbusy
    rcases hfile with hfile | ⟨c, hfile, hempty⟩ <;> subst hfile <;>
      rcases htg with rfl | rfl <;>
      simp_all [Heartbeat.run_once_internal]
  · intro c hbusy hlock hgate hfile hne hok
    subst hlock hfile
    have htg : tg = none ∨ tg = some false := by
      rcases tg with _ | b
      · exact Or.inl rfl
      · rcases b with _ | _
        · exact Or.inr rfl
        · exact absurd rfl hbusy
    rcases htg with rfl | rfl <;> simp_all [Heartbeat.run_once_internal]
  · intro c e hbusy hlock hgate hfile hne hok hentry hdup
    subst hlock hfile hentry
    have htg : tg = none ∨ tg = some false := by
      rcases tg with _ | b
      · exact Or.inl rfl
      · rcases b with _ | _
        · exact Or.inr rfl
        · exact absurd rfl hbusy
    rcases htg with rfl | rfl <;> simp_all [Heartbeat.run_once_internal]
  · intro c hbusy hlock hgate hfile hne hok hnodup
    subst hlock hfile
    have htg : tg = none ∨ tg = some false := by
      rcases tg with _ | b
      · exact Or.inl rfl
      · rcases b with _ | _
        · exact Or.inr rfl
        · exact absurd rfl hbusy
    rcases entry with _ | e
    · rcases htg with rfl | rfl <;> simp_all [Heartbeat.run_once_internal]
    · have := hnodup e rfl
      rcases htg with rfl | rfl <;> simp_all [Heartbeat.run_once_internal]

/-- Witness for C5 at a concrete input: with all gates free, a non-empty
HEARTBEAT.md, a non-sentinel response and no prior store entry, the tick is
recorded as Sent and the response is persisted. -/
theorem heartbeat_status_mapping_witness :
    (Heartbeat.run_once_internal
      { turnGateBusy := some false, workspaceLockAcquired := true,
        gateAcquired := true, heartbeatFile := some "check the backlog".data,
        agentResponse := "ALERT: backlog is growing".data,
        storeEntry := none, now := 1000 }).1 =
      ("ALERT: backlog is growing".data, .sent) ∧
    (Heartbeat.run_once_internal
      { turnGateBusy := some false, workspaceLockAcquired := true,
        gateAcquired := true, heartbeatFile := some "check the backlog".data,
        agentResponse := "ALERT: backlog is growing".data,
        storeEntry := none, now := 1000 }).2 =
      some (Heartbeat.record_heartbeat "ALERT: backlog is growing".data 1000) :=
  (heartbeat_status_mapping
    { turnGateBusy := some false, workspaceLockAcquired := true,
      gateAcquired := true, heartbeatFile := some "check the backlog".data,
      agentResponse := "ALERT: backlog is growing".data,
      storeEntry := none, now := 1000 }).2.2.2.2
    "check the backlog".data (by decide) (by rfl) (fun _ => rfl) (by rfl)
    (by decide) (by decide) (fun e h => by simp at h)

/-- For non-modifying events the fire loop never returns a block. -/
theorem fireGo_allow_of_not_modifying (exec : Hooks.HookDef → Hooks.ExecOutcome)
    (event : Hooks.HookEvent) (hm : Hooks.is_modifying event = false)
    (l : List Hooks.HookDef) : Hooks.fireGo exec event l = .allow := by
  induction l with
  | nil => rfl
  | cons h rest ih =>
    rcases hrh : Hooks.run_hook exec h event with _ | r <;>
      simp [Hooks.fireGo, hrh, hm, ih]

/-- For modifying events the fire loop allows exactly when every hook in
the list allows. -/
theorem fireGo_allow_iff (exec : Hooks.HookDef → Hooks.ExecOutcome)
    (event : Hooks.HookEvent) (hm : Hooks.is_modifying event = true)
    (l : List Hooks.HookDef) :
    Hooks.fireGo exec event l = .allow ↔
      ∀ g ∈ l, Hooks.run_hook exec g event = .allow := by
  induction l with
  | nil => simp [Hooks.fireGo]
  | cons h rest ih =>
    rcases hrh : Hooks.run_hook exec h event with _ | r
    · simp [Hooks.fireGo, hrh, ih]
    · simp [Hooks.fireGo, hrh, hm]

/-- Claim C6: a hook process exiting with code 0 allows the event; a
non-zero exit code yields a block decision, which blocks the event only
when the event is modifying (before_tool_call) — for any non-modifying
event fire always allows; a timed-out hook counts as a block for modifying
events and as allow otherwise; and with no hooks registered every event is
allowed. -/
theorem hook_fire_decision (exec : Hooks.HookDef → Hooks.ExecOutcome)
    (hooks : List Hooks.HookDef) (event : Hooks.HookEvent) (h : Hooks.HookDef) :
    (exec h = .exited 0 → Hooks.run_hook exec h event = .allow) ∧
    (∀ code : Int, code ≠ 0 → exec h = .exited code →
      ∃ r, Hooks.run_hook exec h event = .block r) ∧
    (exec h = .timedOut → Hooks.is_modifying event = true →
      ∃ r, Hooks.run_hook exec h event = .block r) ∧
    (exec h = .timedOut → Hooks.is_modifying event = false →
      Hooks.run_hook exec h event = .allow) ∧
    (Hooks.is_modifying event = false → Hooks.fire exec hooks event = .allow) ∧
    (Hooks.is_modifying event = true →
      (Hooks.fire exec hooks event = .allow ↔
        ∀ g ∈ hooks,
          (Hooks.matches_event g (Hooks.event_name event) && Hooks.is_enabled g) = true →
          Hooks.run_hook exec g event = .allow)) ∧
    Hooks.fire exec [] event = .allow := by
  refine ⟨?_, ?_, ?_, ?_, ?_, ?_, ?_⟩
  · intro hx
    simp [Hooks.run_hook, hx]
  · intro code hc hx
    refine ⟨"Hook ".data ++ h.name ++ " exited with code ".data ++ RustStr.intToStr code, ?_⟩
    simp [Hooks.run_hook, hx, hc]
  · intro hx hm
    refine ⟨"Hook ".data ++ h.name ++ " timed out".data, ?_⟩
    simp [Hooks.run_hook, hx, hm]
  · intro hx hm
    simp [Hooks.run_hook, hx, hm]
  · intro hm
    simp only [Hooks.fire]
    split
    · rfl
    · exact fireGo_allow_of_not_modifying exec event hm _
  · intro hm
    simp only [Hooks.fire]
    split
    · rename_i hemp
      simp only [List.isEmpty_iff, List.filter_eq_nil_iff] at hemp
      constructor
      · intro _ g hg hpred
        exact absurd hpred (by simpa using hemp g hg)
      · intro _
        rfl
    · rw [fireGo_allow_iff exec event hm]
      constructor
      · intro hall g hg hpred
        exact hall g (List.mem_filter.mpr ⟨hg, hpred⟩)
      · intro hall g hg
        obtain ⟨hg', hpred⟩ := List.mem_filter.mp hg
        exact hall g hg' hpred
  · rfl

/-- Witness for C6 at a concrete input: a timed-out hook on the
(non-modifying) after_tool_call event still allows. -/
theorem hook_fire_decision_witness :
    Hooks.fire (fun _ => .timedOut)
      [{ name := "lint".data, event := "after_tool_call".data,
         command := "lint.sh".data, timeout_ms := 5000, enabled := true }]
      .afterToolCall = .allow :=
  (hook_fire_decision (fun _ => .timedOut)
    [{ name := "lint".data, event := "after_tool_call".data,
       command := "lint.sh".data, timeout_ms := 5000, enabled := true }]
    .afterToolCall
    { name := "lint".data, event := "after_tool_call".data,
      command := "lint.sh".data, timeout_ms := 5000, enabled := true }).2.2.2.2.1
    (by rfl)

/-- If every scripted response in the allowed window is a tool-call batch,
the subagent loop ends with the max-iterations failure. -/
theorem runLoop_all_toolcalls (chat : Nat → SpawnAgent.LLMResponseContent)
    (usage : Nat → Nat) (tools : List SpawnAgent.ToolImpl)
    (remaining iter tokens : Nat) (session : List SpawnAgent.Message)
    (h : ∀ j, iter ≤ j → j < iter + remaining →
      ∃ calls, chat j = .toolCalls calls) :
    ∃ tk, (SpawnAgent.runLoop chat usage tools remaining iter tokens session).1 =
      SpawnAgent.maxIterResult tk := by
  induction remaining generalizing iter tokens session with
  | zero => exact ⟨tokens, rfl⟩
  | succ r ih =>
    obtain ⟨calls, hcalls⟩ := h iter (le_refl _) (by omega)
    have h' : ∀ j, iter + 1 ≤ j → j < iter + 1 + r →
        ∃ calls, chat j = .toolCalls calls :=
      fun j h1 h2 => h j (by omega) (by omega)
    have := ih (iter + 1) (tokens + usage iter)
      ((session ++
        [{ role := .assistant, content := [], tool_calls := some calls,
           tool_call_id := none }]) ++ SpawnAgent.execToolCalls tools calls) h'
    simpa [SpawnAgent.runLoop, hcalls] using this

/-- `run_subagent` unfolded: the result is the capped loop's result and the
session's system context is the specialist prompt. -/
theorem run_subagent_eq (ctx : SpawnAgent.SpawnContext)
    (params : SpawnAgent.SpawnParams) (chat : Nat → SpawnAgent.LLMResponseContent)
    (usage : Nat → Nat) (tools : List SpawnAgent.ToolImpl) :
    SpawnAgent.run_subagent ctx params chat usage tools =
      ((SpawnAgent.runLoop chat usage (SpawnAgent.filter_subagent_tools ctx tools)
          SpawnAgent.max_iterations 1 0 (SpawnAgent.initSession params)).1,
       { system_context := SpawnAgent.build_subagent_prompt params,
         messages := (SpawnAgent.runLoop chat usage
           (SpawnAgent.filter_subagent_tools ctx tools)
           SpawnAgent.max_iterations 1 0 (SpawnAgent.initSession params)).2 }) := by
  rcases h : SpawnAgent.runLoop chat usage (SpawnAgent.filter_subagent_tools ctx tools)
      SpawnAgent.max_iterations 1 0 (SpawnAgent.initSession params) with ⟨res, msgs⟩
  simp [SpawnAgent.run_subagent, h]

/-- Claim C7: from_config starts at depth 0 with max depth defaulting to 1;
when the current depth reaches max_spawn_depth, execute creates no subagent
and returns the maximum-depth refusal; the subagent tool set never contains
spawn_agent; the subagent session's system context is the task-typed
specialist prompt (which embeds the per-task guidance); and when the
provider keeps returning tool calls the loop stops after its cap of 20
iterations with the max-iterations failure result. -/
theorem spawn_agent_depth_toolset_cap (cfg : Option Nat)
    (ctx : SpawnAgent.SpawnContext) (params : SpawnAgent.SpawnParams)
    (chat : Nat → SpawnAgent.LLMResponseContent) (usage : Nat → Nat)
    (tools : List SpawnAgent.ToolImpl) :
    ((SpawnAgent.from_config cfg).depth = 0 ∧
      (SpawnAgent.from_config cfg).maxDepth = cfg.getD 1) ∧
    (params.depth.getD ctx.depth ≥ ctx.maxDepth →
      SpawnAgent.executeSpawn ctx params chat usage tools =
        (SpawnAgent.maxDepthMsg ctx.maxDepth, none)) ∧
    (∀ t ∈ SpawnAgent.filter_subagent_tools ctx tools,
      ¬t.name = "spawn_agent".data) ∧
    ((SpawnAgent.run_subagent ctx params chat usage tools).2.system_context =
      SpawnAgent.build_subagent_prompt params ∧
      ∃ a b, SpawnAgent.build_subagent_prompt params =
        a ++ SpawnAgent.task_guidance params.task ++ b) ∧
    ((∀ j, 1 ≤ j → j ≤ 20 → ∃ calls, chat j = .toolCalls calls) →
      ∃ tk, (SpawnAgent.run_subagent ctx params chat usage tools).1 =
        SpawnAgent.maxIterResult tk) := by
  refine ⟨⟨rfl, rfl⟩, ?_, ?_, ⟨?_, ?_⟩, ?_⟩
  · intro h
    simp only [SpawnAgent.executeSpawn]
    rw [if_pos h]
  · intro t ht
    unfold SpawnAgent.filter_subagent_tools at ht
    split at ht <;>
      simpa using (List.mem_filter.mp ht).2
  · rw [run_subagent_eq]
  · exact ⟨"# Specialist Agent\n\n## Role\n".data,
      "\n\n## Task\n".data ++ params.description ++
        ("\n\n## Instructions\n- Focus only on the assigned task\n" ++
         "- Do NOT spawn additional agents\n- Return a clear summary of your work\n" ++
         "- If you cannot complete the task, explain why\n\n## Input\n").data ++
        (if params.input.isEmpty then "(No additional input provided)".data
         else params.input),
      by simp only [SpawnAgent.build_subagent_prompt, List.append_assoc]⟩
  · intro h
    have hm : SpawnAgent.max_iterations = 20 := rfl
    have hcap : ∀ j, 1 ≤ j → j < 1 + SpawnAgent.max_iterations →
        ∃ calls, chat j = .toolCalls calls := by
      intro j h1 h2
      rw [hm] at h2
      exact h j h1 (by omega)
    obtain ⟨tk, htk⟩ := runLoop_all_toolcalls chat usage
      (SpawnAgent.filter_subagent_tools ctx tools) SpawnAgent.max_iterations 1 0
      (SpawnAgent.initSession params) hcap
    rw [run_subagent_eq]
    exact ⟨tk, htk⟩

/-- Witness for C7 at a concrete input: with max depth 1 and a spawn
request at depth 1, execute refuses with the maximum-depth message and
creates no subagent. -/
theorem spawn_agent_depth_toolset_cap_witness :
    SpawnAgent.executeSpawn { depth := 1, maxDepth := 1 }
      { task := "explore".data, description := "look around".data,
        input := [], depth := none }
      (fun _ => .text "done".data) (fun _ => 0) [] =
      (SpawnAgent.maxDepthMsg 1, none) :=
  (spawn_agent_depth_toolset_cap none { depth := 1, maxDepth := 1 }
    { task := "explore".data, description := "look around".data,
      input := [], depth := none }
    (fun _ => .text "done".data) (fun _ => 0) []).2.1 (by decide)

/-- An input containing a slash matches none of the alias keys, so alias
resolution leaves it unchanged. -/
theorem resolve_alias_of_slash (m : Str) (h : '/' ∈ m) :
    Providers.resolve_model_alias m = m := by
  have hl : '/' ∈ RustStr.lower m := List.mem_map.mpr ⟨'/', h, rfl⟩
  have key : ∀ k : Str, '/' ∉ k → (RustStr.lower m == k) = false := by
    intro k hk
    rw [beq_eq_false_iff_ne]
    intro he
    exact hk (he ▸ hl)
  simp only [Providers.resolve_model_alias]
  rw [key "opus".data (by decide), key "sonnet".data (by decide),
    key "gpt".data (by decide), key "gpt-mini".data (by decide),
    key "glm".data (by decide), key "grok".data (by decide)]
  simp

/-- Alias resolution is idempotent. -/
theorem resolve_model_alias_idem (m : Str) :
    Providers.resolve_model_alias (Providers.resolve_model_alias m) =
      Providers.resolve_model_alias m := by
  by_cases h1 : (RustStr.lower m == "opus".data) = true
  · simp only [Providers.resolve_model_alias, h1, if_true]
    exact resolve_alias_of_slash "anthropic/claude-opus-4-5".data (by decide)
  · by_cases h2 : (RustStr.lower m == "sonnet".data) = true
    · simp only [Providers.resolve_model_alias, h1, h2, if_true, if_false,
        Bool.false_eq_true]
      exact resolve_alias_of_slash "anthropic/claude-sonnet-4-5".data (by decide)
    · by_cases h3 : (RustStr.lower m == "gpt".data) = true
      · simp only [Providers.resolve_model_alias, h1, h2, h3, if_true, if_false,
          Bool.false_eq_true]
        exact resolve_alias_of_slash "openai/gpt-4o".data (by decide)
      · by_cases h4 : (RustStr.lower m == "gpt-mini".data) = true
        · simp only [Providers.resolve_model_alias, h1, h2, h3, h4, if_true, if_false,
            Bool.false_eq_true]
          exact resolve_alias_of_slash "openai/gpt-4o-mini".data (by decide)
        · by_cases h5 : (RustStr.lower m == "glm".data) = true
          · simp only [Providers.resolve_model_alias, h1, h2, h3, h4, h5, if_true,
              if_false, Bool.false_eq_true]
            exact resolve_alias_of_slash "glm/glm-4.7".data (by decide)
          · by_cases h6 : (RustStr.lower m == "grok".data) = true
            · simp only [Providers.resolve_model_alias, h1, h2, h3, h4, h5, h6,
                if_true, if_false, Bool.false_eq_true]
              exact resolve_alias_of_slash "xai/grok-3-mini".data (by decide)
            · have hm : Providers.resolve_model_alias m = m := by
                simp only [Providers.resolve_model_alias, h1, h2, h3, h4, h5, h6,
                  if_false, Bool.false_eq_true]
              rw [hm, hm]

/-- Splitting a qualified `provider/model` input whose provider part has no
slash yields the lower-cased provider and the untouched model part. -/
theorem parse_qualified (p mid : Str) (cfg : Providers.ProvidersConfig)
    (h : '/' ∉ p) :
    Providers.parse_provider_model (p ++ '/' :: mid) cfg =
      (RustStr.lower p, mid) := by
  have hidx : (p ++ '/' :: mid).findIdx? (· == '/') = some p.length := by
    induction p with
    | nil => simp [List.findIdx?_cons]
    | cons c p' ih =>
      have hc : (c == '/') = false := by
        rw [beq_eq_false_iff_ne]
        intro he
        exact h (by simp [he])
      have ih' := ih fun hm => h (by simp [hm])
      simp [List.findIdx?_cons, hc, ih']
  have htake : (p ++ '/' :: mid).take p.length = p := List.take_left p _
  have hdrop : (p ++ '/' :: mid).drop (p.length + 1) = mid := by
    have hsplit : p ++ '/' :: mid = (p ++ ['/']) ++ mid := by simp
    have hlen : p.length + 1 = (p ++ ['/']).length := by simp
    rw [hsplit, hlen, List.drop_left]
  simp only [Providers.parse_provider_model, hidx, htake, hdrop]

/-- On the seven dedicated non-anthropic arms the constructed provider
receives the model id unchanged. -/
theorem effective_model_id_known (cfg : Providers.ProvidersConfig)
    (X mid : Str) (hmem : X ∈ Providers.known_provider_arms)
    (hna : X ≠ "anthropic".data) :
    Providers.effective_model_id cfg X mid = some mid := by
  simp only [Providers.known_provider_arms, List.mem_cons,
    List.not_mem_nil, or_false] at hmem
  rcases hmem with rfl | rfl | rfl | rfl | rfl | rfl | rfl | rfl
  · exact absurd rfl hna
  · simp only [Providers.effective_model_id]
    rw [if_neg (by decide), if_pos (by decide)]
  · simp only [Providers.effective_model_id]
    rw [if_neg (by decide), if_neg (by decide), if_pos (by decide)]
  · simp only [Providers.effective_model_id]
    rw [if_neg (by decide), if_neg (by decide), if_neg (by decide),
      if_pos (by decide)]
  · simp only [Providers.effective_model_id]
    rw [if_neg (by decide), if_neg (by decide), if_neg (by decide),
      if_neg (by decide), if_pos (by decide)]
  · simp only [Providers.effective_model_id]
    rw [if_neg (by decide), if_neg (by decide), if_neg (by decide),
      if_neg (by decide), if_neg (by decide), if_pos (by decide)]
  · simp only [Providers.effective_model_id]
    rw [if_neg (by decide), if_neg (by decide), if_neg (by decide),
      if_neg (by decide), if_neg (by decide), if_neg (by decide),
      if_pos (by decide)]
  · simp only [Providers.effective_model_id]
    rw [if_neg (by decide), if_neg (by decide), if_neg (by decide),
      if_neg (by decide), if_neg (by decide), if_neg (by decide),
      if_neg (by decide), if_pos (by decide)]

/-- On the `_` fallback arm the input's model part is discarded: the
provider model is the configured claude_cli model, or none is built. -/
theorem effective_model_id_fallback (cfg : Providers.ProvidersConfig)
    (X mid : Str) (hmem : X ∉ Providers.known_provider_arms) :
    Providers.effective_model_id cfg X mid = cfg.claudeCliModel := by
  have hne : ∀ k ∈ Providers.known_provider_arms, ¬X = k := by
    intro k hk he
    rw [he] at hmem
    exact hmem hk
  simp only [Providers.effective_model_id]
  rw [if_neg (by simpa using hne "anthropic".data (by decide)),
    if_neg (by simpa using hne "openai".data (by decide)),
    if_neg (by simpa using hne "xai".data (by decide)),
    if_neg (by simpa using hne "claude-cli".data (by decide)),
    if_neg (by simpa using hne "ollama".data (by decide)),
    if_neg (by simpa using hne "glm".data (by decide)),
    if_neg (by simpa using hne "gemini".data (by decide)),
    if_neg (by simpa using hne "github".data (by decide))]

/-- Counterexample to claim C9 as stated, at two inputs: the
already-qualified input "anthropic/claude-sonnet-4-5" has model part
"claude-sonnet-4-5" but the provider is handed the normalized dated id;
and the already-qualified input "custom/mymodel" falls into
create_provider's `_` fallback arm, which with claude_cli configured hands
the provider the *configured* model, discarding the input's model part. -/
theorem model_alias_counterexample :
    (Providers.parse_provider_model "anthropic/claude-sonnet-4-5".data
        ⟨false, false, none⟩).2 = "claude-sonnet-4-5".data ∧
    (Providers.select_provider "anthropic/claude-sonnet-4-5".data
        ⟨false, false, none⟩).2 = some "claude-sonnet-4-5-20250929".data ∧
    some "claude-sonnet-4-5-20250929".data ≠ some "claude-sonnet-4-5".data ∧
    (Providers.parse_provider_model "custom/mymodel".data
        ⟨false, false, some "sonnet".data⟩).2 = "mymodel".data ∧
    (Providers.select_provider "custom/mymodel".data
        ⟨false, false, some "sonnet".data⟩).2 = some "sonnet".data ∧
    some "sonnet".data ≠ some "mymodel".data := by
  refine ⟨by decide, by decide, by decide, by decide, by decide, by decide⟩

/-- Claim C9 (amended): model alias resolution is applied exactly once
before provider selection and is idempotent — resolving an already-resolved
name changes nothing and pre-resolving the input does not change the
selection; an already-qualified provider/model input passes through alias
resolution unchanged; for a qualified input whose provider part is one of
the recognized provider arms other than anthropic the model identifier
passed to the provider equals the model part unchanged; for the anthropic
arm it is normalized by normalize_model_id; and for an unrecognized
provider the input's model part is discarded — the fallback arm uses the
configured claude_cli model when present and otherwise builds no
provider. -/
theorem model_alias_once_idempotent (m p mid : Str)
    (cfg : Providers.ProvidersConfig) :
    (Providers.resolve_model_alias (Providers.resolve_model_alias m) =
      Providers.resolve_model_alias m) ∧
    ('/' ∈ m → Providers.resolve_model_alias m = m) ∧
    (Providers.select_provider (Providers.resolve_model_alias m) cfg =
      Providers.select_provider m cfg) ∧
    ('/' ∉ p → Providers.select_provider (p ++ '/' :: mid) cfg =
      (RustStr.lower p,
        Providers.effective_model_id cfg (RustStr.lower p) mid)) ∧
    ('/' ∉ p → RustStr.lower p ∈ Providers.known_provider_arms →
      RustStr.lower p ≠ "anthropic".data →
      (Providers.select_provider (p ++ '/' :: mid) cfg).2 = some mid) ∧
    ('/' ∉ p → RustStr.lower p = "anthropic".data →
      (Providers.select_provider (p ++ '/' :: mid) cfg).2 =
        some (Providers.normalize_model_id "anthropic".data mid)) ∧
    ('/' ∉ p → RustStr.lower p ∉ Providers.known_provider_arms →
      (Providers.select_provider (p ++ '/' :: mid) cfg).2 =
        cfg.claudeCliModel) := by
  have hq : '/' ∉ p → Providers.select_provider (p ++ '/' :: mid) cfg =
      (RustStr.lower p,
        Providers.effective_model_id cfg (RustStr.lower p) mid) := by
    intro h
    have hres := resolve_alias_of_slash (p ++ '/' :: mid) (by simp)
    simp only [Providers.select_provider, hres, parse_qualified p mid cfg h]
  refine ⟨resolve_model_alias_idem m, resolve_alias_of_slash m, ?_, hq,
    ?_, ?_, ?_⟩
  · simp only [Providers.select_provider, resolve_model_alias_idem]
  · intro h hmem hna
    rw [hq h]
    exact effective_model_id_known cfg _ mid hmem hna
  · intro h heq
    rw [hq h]
    show Providers.effective_model_id cfg (RustStr.lower p) mid = _
    rw [heq]
    simp only [Providers.effective_model_id]
    rw [if_pos (by decide)]
  · intro h hmem
    rw [hq h]
    exact effective_model_id_fallback cfg _ mid hmem

/-- Witness for C9 (amended) at a concrete input: for the qualified input
"openai/gpt-4o", whose provider has a dedicated non-anthropic arm, the
provider receives "gpt-4o" unchanged. -/
theorem model_alias_once_idempotent_witness :
    (Providers.select_provider ("openai".data ++ '/' :: "gpt-4o".data)
      ⟨false, false, none⟩).2 = some "gpt-4o".data :=
  (model_alias_once_idempotent "opus".data "openai".data "gpt-4o".data
    ⟨false, false, none⟩).2.2.2.2.1 (by decide) (by decide) (by decide)

/-- Claim C10: a memory_get path that is not exactly MEMORY.md or
HEARTBEAT.md and does not start with memory/ is only tilde-expanded — the
workspace does not enter the resolution — and the resulting file is read
directly: the output depends on nothing but the resolved file's content
(the tool applies no allowed-directories, sandbox deny-list or
protected-file check); paths of the three workspace shapes are resolved
relative to the workspace. -/
theorem memory_get_direct_read (fs₁ fs₂ : Str → Option Str)
    (workspace workspace' home path : Str) (fromArg linesArg : Option Nat) :
    ((RustStr.startsWith path "memory/".data || path == "MEMORY.md".data ||
        path == "HEARTBEAT.md".data) = false →
      MemoryGet.resolve_path workspace home path = MemoryGet.tilde home path ∧
      MemoryGet.resolve_path workspace home path =
        MemoryGet.resolve_path workspace' home path) ∧
    ((RustStr.startsWith path "memory/".data || path == "MEMORY.md".data ||
        path == "HEARTBEAT.md".data) = true →
      MemoryGet.resolve_path workspace home path =
        MemoryGet.joinPath workspace path) ∧
    (fs₁ (MemoryGet.resolve_path workspace home path) =
        fs₂ (MemoryGet.resolve_path workspace home path) →
      MemoryGet.executeGet fs₁ workspace home path fromArg linesArg =
        MemoryGet.executeGet fs₂ workspace home path fromArg linesArg) := by
  refine ⟨?_, ?_, ?_⟩
  · intro h
    constructor
    · simp only [MemoryGet.resolve_path, h]
      simp
    · simp only [MemoryGet.resolve_path, h]
      simp
  · intro h
    simp only [MemoryGet.resolve_path, h]
    simp
  · intro h
    simp only [MemoryGet.executeGet]
    rw [h]

/-- Witness for C10 at a concrete input: the path "~/secrets.txt" is not of
a workspace shape, so it resolves to the tilde expansion under the home
directory no matter what the workspace is, and the read result depends
only on that file's content. -/
theorem memory_get_direct_read_witness :
    MemoryGet.resolve_path "/ws".data "/home/u".data "~/secrets.txt".data =
      MemoryGet.tilde "/home/u".data "~/secrets.txt".data ∧
    MemoryGet.resolve_path "/ws".data "/home/u".data "~/secrets.txt".data =
      MemoryGet.resolve_path "/other".data "/home/u".data "~/secrets.txt".data :=
  (memory_get_direct_read (fun _ => none) (fun _ => none) "/ws".data
    "/other".data "/home/u".data "~/secrets.txt".data none none).1 (by decide)

/-- A true `check_path_allowed` with a non-empty allowed list yields an
allowed prefix. -/
theorem check_path_allowed_spec (p : FileTools.CPath)
    (allowed : List FileTools.CPath)
    (h : FileTools.check_path_allowed p allowed = true)
    (hne : allowed ≠ []) :
    ∃ a ∈ allowed, a.isPrefixOf p = true := by
  unfold FileTools.check_path_allowed at h
  rw [Bool.or_eq_true] at h
  rcases h with h | h
  · rw [List.isEmpty_iff] at h
    exact absurd h hne
  · exact List.any_eq_true.mp h

/-- Claim C2: every write_file or edit_file success happened on the
canonicalized, symlink-resolved path; that canonical path has some
allowed_directories entry as a prefix whenever that list is non-empty, is
not under the sandbox deny list, and is not protected (so a symlink inside
an allowed directory pointing outside — a raw path whose canonical form
lacks an allowed prefix — is rejected); an allowed-directories denial
errors with a path_denied audit entry and leaves the files unchanged; a
protected path errors with a write_blocked audit entry and leaves the
files unchanged; a sandbox-denied path errors and leaves the state
unchanged. -/
theorem file_write_edit_path_scoping (env : FileTools.ToolEnv)
    (st : FileTools.FsState) (path content old_s new_s : Str)
    (replaceAll : Bool) :
    (∀ out st', FileTools.write_file env st path content = (.ok out, st') →
      ∃ p, env.resolve path = some p ∧
        (env.allowed_directories ≠ [] →
          ∃ a ∈ env.allowed_directories, a.isPrefixOf p = true) ∧
        FileTools.is_path_denied p env.sandboxDeny = false ∧
        env.is_path_protected p = false) ∧
    (∀ out st', FileTools.edit_file env st path old_s new_s replaceAll =
        (.ok out, st') →
      ∃ p, env.resolve path = some p ∧
        (env.allowed_directories ≠ [] →
          ∃ a ∈ env.allowed_directories, a.isPrefixOf p = true) ∧
        FileTools.is_path_denied p env.sandboxDeny = false ∧
        env.is_path_protected p = false) ∧
    (∀ p, env.resolve path = some p → env.filterOk p = true →
      FileTools.check_path_allowed p env.allowed_directories = false →
      (FileTools.write_file env st path content).1 =
        .error "path outside allowed directories".data ∧
      (FileTools.write_file env st path content).2.files = st.files ∧
      (FileTools.write_file env st path content).2.audit = st.audit ++
        [⟨.pathDenied, "tool:write_file".data,
          "write_file denied: ".data ++ FileTools.renderPath p⟩]) ∧
    (∀ p, env.resolve path = some p → env.filterOk p = true →
      FileTools.check_path_allowed p env.allowed_directories = true →
      FileTools.is_path_denied p env.sandboxDeny = false →
      env.is_path_protected p = true →
      (FileTools.write_file env st path content).1 =
        .error ("Cannot write to protected file: ".data ++ FileTools.renderPath p) ∧
      (FileTools.write_file env st path content).2.files = st.files ∧
      (FileTools.write_file env st path content).2.audit = st.audit ++
        [⟨.writeBlocked, "tool:write_file".data,
          "Agent attempted write to ".data ++ FileTools.renderPath p⟩]) ∧
    (∀ p, env.resolve path = some p → env.filterOk p = true →
      FileTools.check_path_allowed p env.allowed_directories = true →
      FileTools.is_path_denied p env.sandboxDeny = true →
      (FileTools.write_file env st path content).1 =
        .error ("Cannot write to denied directory: ".data ++ FileTools.renderPath p) ∧
      (FileTools.write_file env st path content).2 = st) ∧
    (∀ p, env.resolve path = some p → env.filterOk p = true →
      FileTools.check_path_allowed p env.allowed_directories = false →
      (FileTools.edit_file env st path old_s new_s replaceAll).1 =
        .error "path outside allowed directories".data ∧
      (FileTools.edit_file env st path old_s new_s replaceAll).2.files = st.files ∧
      (FileTools.edit_file env st path old_s new_s replaceAll).2.audit = st.audit ++
        [⟨.pathDenied, "tool:edit_file".data,
          "edit_file denied: ".data ++ FileTools.renderPath p⟩]) ∧
    (∀ p, env.resolve path = some p → env.filterOk p = true →
      FileTools.check_path_allowed p env.allowed_directories = true →
      FileTools.is_path_denied p env.sandboxDeny = false →
      env.is_path_protected p = true →
      (FileTools.edit_file env st path old_s new_s replaceAll).1 =
        .error ("Cannot edit protected file: ".data ++ FileTools.renderPath p) ∧
      (FileTools.edit_file env st path old_s new_s replaceAll).2.files = st.files ∧
      (FileTools.edit_file env st path old_s new_s replaceAll).2.audit = st.audit ++
        [⟨.writeBlocked, "tool:edit_file".data,
          "Agent attempted edit to ".data ++ FileTools.renderPath p⟩]) ∧
    (∀ p, env.resolve path = some p → env.filterOk p = true →
      FileTools.check_path_allowed p env.allowed_directories = true →
      FileTools.is_path_denied p env.sandboxDeny = true →
      (FileTools.edit_file env st path old_s new_s replaceAll).1 =
        .error ("Cannot edit file in denied directory: ".data ++ FileTools.renderPath p) ∧
      (FileTools.edit_file env st path old_s new_s replaceAll).2 = st) := by
  refine ⟨?_, ?_, ?_, ?_, ?_, ?_, ?_, ?_⟩
  · intro out st' h
    rcases hres : env.resolve path with _ | p
    · simp only [FileTools.write_file, hres] at h
      simp at h
    · refine ⟨p, rfl, ?_⟩
      simp only [FileTools.write_file, hres] at h
      split at h
      · simp at h
      · split at h
        · simp at h
        · split at h
          · simp at h
          · split at h
            · simp at h
            · rename_i hfil hall hden hprot
              refine ⟨fun hne => check_path_allowed_spec p _ (by simpa using hall) hne,
                by simpa using hden, by simpa using hprot⟩
  · intro out st' h
    rcases hres : env.resolve path with _ | p
    · simp only [FileTools.edit_file, hres] at h
      simp at h
    · refine ⟨p, rfl, ?_⟩
      simp only [FileTools.edit_file, hres] at h
      split at h
      · simp at h
      · split at h
        · simp at h
        · split at h
          · simp at h
          · split at h
            · simp at h
            · rename_i hfil hall hden hprot
              refine ⟨fun hne => check_path_allowed_spec p _ (by simpa using hall) hne,
                by simpa using hden, by simpa using hprot⟩
  · intro p hres hfil hall
    simp [FileTools.write_file, hres, hfil, hall]
  · intro p hres hfil hall hden hprot
    simp [FileTools.write_file, hres, hfil, hall, hden, hprot]
  · intro p hres hfil hall hden
    simp [FileTools.write_file, hres, hfil, hall, hden]
  · intro p hres hfil hall
    simp [FileTools.edit_file, hres, hfil, hall]
  · intro p hres hfil hall hden hprot
    simp [FileTools.edit_file, hres, hfil, hall, hden, hprot]
  · intro p hres hfil hall hden
    simp [FileTools.edit_file, hres, hfil, hall, hden]

/-- Witness for C2 at a concrete input: a successful write into an allowed
directory resolves to a canonical path with the allowed entry as a prefix,
is not sandbox-denied and not protected. -/
theorem file_write_edit_path_scoping_witness :
    ∃ p, (⟨fun s => if s == "/ws/notes.txt".data then
            some ["ws".data, "notes.txt".data] else none,
          [["ws".data]], [], fun _ => false, fun _ => true⟩ :
            FileTools.ToolEnv).resolve "/ws/notes.txt".data = some p ∧
      (([["ws".data]] : List FileTools.CPath) ≠ [] →
        ∃ a ∈ ([["ws".data]] : List FileTools.CPath), a.isPrefixOf p = true) ∧
      FileTools.is_path_denied p [] = false ∧
      (fun (_ : FileTools.CPath) => false) p = false :=
  (file_write_edit_path_scoping
    ⟨fun s => if s == "/ws/notes.txt".data then
        some ["ws".data, "notes.txt".data] else none,
      [["ws".data]], [], fun _ => false, fun _ => true⟩
    ⟨[], []⟩ "/ws/notes.txt".data "hi".data "a".data "b".data false).1 _ _
    (by rfl)

/-- A successful validation returns the URL it was given. -/
theorem validate_parsed_ok_eq (dns : Str → Nat → Option (List WebFetch.IpAddr))
    (u v : WebFetch.Url) (h : WebFetch.validate_parsed dns u = .ok v) : v = u := by
  unfold WebFetch.validate_parsed at h
  split at h
  · simp at h
  · split at h
    · simp at h
    · split at h
      · simp at h
      · split at h
        · split at h
          · simp at h
          · simpa using h.symm
        · split at h
          · simp at h
          · split at h
            · simp at h
            · simpa using h.symm

/-- What a successful validation guarantees: http/https scheme, a host
that is not blocked, and (IP-literal or via DNS) no private address. -/
theorem validate_parsed_ok_spec (dns : Str → Nat → Option (List WebFetch.IpAddr))
    (u : WebFetch.Url) (h : WebFetch.validate_parsed dns u = .ok u) :
    (u.scheme = "http".data ∨ u.scheme = "https".data) ∧
    ∃ host, u.host = some host ∧ WebFetch.is_blocked_hostname host = false ∧
      (∀ ip, WebFetch.parse_ipv4 host = some ip →
        WebFetch.is_private_ip ip = false) ∧
      (WebFetch.parse_ipv4 host = none →
        ∃ addrs, dns host (WebFetch.port_or_known_default u) = some addrs ∧
          ∀ ip ∈ addrs, WebFetch.is_private_ip ip = false) := by
  unfold WebFetch.validate_parsed at h
  split at h
  · simp at h
  · rename_i hscheme
    rw [Classical.not_not] at hscheme
    have hsch : u.scheme = "http".data ∨ u.scheme = "https".data := by
      rcases Bool.or_eq_true _ _ |>.mp hscheme with h1 | h1
      · exact Or.inl (by simpa using h1)
      · exact Or.inr (by simpa using h1)
    split at h
    · simp at h
    · rename_i host hhost
      split at h
      · simp at h
      · rename_i hblocked
        refine ⟨hsch, host, hhost, by simpa using hblocked, ?_, ?_⟩
        · intro ip hip
          rw [hip] at h
          split at h
          · rename_i ip' heq
            split at h
            · simp at h
            · rename_i hpriv
              injection heq with heq
              subst heq
              simpa using hpriv
          · rename_i heq
            simp at heq
        · intro hip
          rw [hip] at h
          split at h
          · rename_i ip' heq
            simp at heq
          · split at h
            · simp at h
            · rename_i addrs haddrs
              split at h
              · simp at h
              · rename_i hany
                refine ⟨addrs, haddrs, ?_⟩
                intro ip hmem
                by_contra hc
                rw [Bool.not_eq_false] at hc
                exact hany (List.any_eq_true.mpr ⟨ip, hmem, hc⟩)

/-- Step equation: a failed request errors out. -/
theorem fetchGo_net_none (dns : Str → Nat → Option (List WebFetch.IpAddr))
    (net : WebFetch.Url → Option WebFetch.HttpResponse)
    (join : WebFetch.Url → Str → Option WebFetch.Url) (fuel : Nat)
    (u : WebFetch.Url) (h : net u = none) :
    WebFetch.fetchGo dns net join fuel u = .error "request failed".data := by
  unfold WebFetch.fetchGo
  rw [h]

/-- Step equation: a non-redirect response ends the loop at the current
URL. -/
theorem fetchGo_final (dns : Str → Nat → Option (List WebFetch.IpAddr))
    (net : WebFetch.Url → Option WebFetch.HttpResponse)
    (join : WebFetch.Url → Str → Option WebFetch.Url) (fuel : Nat)
    (u : WebFetch.Url) (resp : WebFetch.HttpResponse) (h : net u = some resp)
    (hf : WebFetch.should_follow_redirect resp.status = false) :
    WebFetch.fetchGo dns net join fuel u = .ok (resp, u, [u]) := by
  unfold WebFetch.fetchGo
  rw [h]
  simp [hf]

/-- Step equation: a redirect with no fuel left is the too-many-redirects
error. -/
theorem fetchGo_exhausted (dns : Str → Nat → Option (List WebFetch.IpAddr))
    (net : WebFetch.Url → Option WebFetch.HttpResponse)
    (join : WebFetch.Url → Str → Option WebFetch.Url)
    (u : WebFetch.Url) (resp : WebFetch.HttpResponse) (h : net u = some resp)
    (hf : WebFetch.should_follow_redirect resp.status = true) :
    WebFetch.fetchGo dns net join 0 u = .error "Too many redirects".data := by
  unfold WebFetch.fetchGo
  rw [h]
  simp [hf]

/-- Step equation: a redirect with no Location header errors out. -/
theorem fetchGo_no_location (dns : Str → Nat → Option (List WebFetch.IpAddr))
    (net : WebFetch.Url → Option WebFetch.HttpResponse)
    (join : WebFetch.Url → Str → Option WebFetch.Url) (f : Nat)
    (u : WebFetch.Url) (resp : WebFetch.HttpResponse) (h : net u = some resp)
    (hf : WebFetch.should_follow_redirect resp.status = true)
    (hloc : resp.location = none) :
    WebFetch.fetchGo dns net join (f + 1) u =
      .error "Redirect response missing Location header".data := by
  unfold WebFetch.fetchGo
  rw [h]
  simp [hf, hloc]

/-- Step equation: a redirect with fuel validates the target and recurses. -/
theorem fetchGo_step (dns : Str → Nat → Option (List WebFetch.IpAddr))
    (net : WebFetch.Url → Option WebFetch.HttpResponse)
    (join : WebFetch.Url → Str → Option WebFetch.Url) (f : Nat)
    (u : WebFetch.Url) (resp : WebFetch.HttpResponse) (loc : Str)
    (h : net u = some resp)
    (hf : WebFetch.should_follow_redirect resp.status = true)
    (hloc : resp.location = some loc) :
    WebFetch.fetchGo dns net join (f + 1) u =
      match WebFetch.resolve_and_validate_redirect_target dns join u loc with
      | .error e => .error e
      | .ok next =>
        match WebFetch.fetchGo dns net join f next with
        | .error e => .error e
        | .ok (r, fin, visited) => .ok (r, fin, u :: visited) := by
  conv_lhs => unfold WebFetch.fetchGo
  rw [h]
  simp [hf, hloc]

/-- Every URL the redirect loop sends a request to was validated, and at
most `fuel + 1` requests are sent. -/
theorem fetchGo_ok_visited (dns : Str → Nat → Option (List WebFetch.IpAddr))
    (net : WebFetch.Url → Option WebFetch.HttpResponse)
    (join : WebFetch.Url → Str → Option WebFetch.Url) (fuel : Nat)
    (u : WebFetch.Url) (hu : WebFetch.validate_parsed dns u = .ok u)
    (resp : WebFetch.HttpResponse) (fin : WebFetch.Url)
    (visited : List WebFetch.Url)
    (h : WebFetch.fetchGo dns net join fuel u = .ok (resp, fin, visited)) :
    (∀ v ∈ visited, WebFetch.validate_parsed dns v = .ok v) ∧
    visited.length ≤ fuel + 1 := by
  induction fuel generalizing u resp fin visited with
  | zero =>
    rcases hnetu : net u with _ | r
    · rw [fetchGo_net_none dns net join 0 u hnetu] at h
      simp at h
    · rcases hf : WebFetch.should_follow_redirect r.status with _ | _
      · rw [fetchGo_final dns net join 0 u r hnetu hf] at h
        simp only [Except.ok.injEq, Prod.mk.injEq] at h
        obtain ⟨-, -, hvis⟩ := h
        subst hvis
        exact ⟨by simpa using hu, by simp⟩
      · rw [fetchGo_exhausted dns net join u r hnetu hf] at h
        simp at h
  | succ f ih =>
    rcases hnetu : net u with _ | r
    · rw [fetchGo_net_none dns net join (f + 1) u hnetu] at h
      simp at h
    · rcases hf : WebFetch.should_follow_redirect r.status with _ | _
      · rw [fetchGo_final dns net join (f + 1) u r hnetu hf] at h
        simp only [Except.ok.injEq, Prod.mk.injEq] at h
        obtain ⟨-, -, hvis⟩ := h
        subst hvis
        exact ⟨by simpa using hu, by simp⟩
      · rcases hloc : r.location with _ | loc
        · rw [fetchGo_no_location dns net join f u r hnetu hf hloc] at h
          simp at h
        · rw [fetchGo_step dns net join f u r loc hnetu hf hloc] at h
          rcases hrv : WebFetch.resolve_and_validate_redirect_target dns join u loc
            with e | next
          · rw [hrv] at h
            simp at h
          · rw [hrv] at h
            dsimp only at h
            have hnextv : WebFetch.validate_parsed dns next = .ok next := by
              unfold WebFetch.resolve_and_validate_redirect_target at hrv
              split at hrv
              · simp at hrv
              · rename_i cand hcand
                have := validate_parsed_ok_eq dns cand next hrv
                subst this
                exact hrv
            rcases hrec : WebFetch.fetchGo dns net join f next
              with e | ⟨r', fin', vis'⟩
            · rw [hrec] at h
              simp at h
            · rw [hrec] at h
              simp only [Except.ok.injEq, Prod.mk.injEq] at h
              obtain ⟨-, -, hvis⟩ := h
              subst hvis
              obtain ⟨hall, hlen⟩ := ih next hnextv r' fin' vis' hrec
              refine ⟨?_, by simpa using Nat.succ_le_succ hlen⟩
              intro v hv
              rcases List.mem_cons.mp hv with rfl | hv
              · exact hu
              · exact hall v hv

/-- When every response is a validatable redirect, the loop exhausts its
fuel and fails with the too-many-redirects error. -/
theorem fetchGo_all_redirects (dns : Str → Nat → Option (List WebFetch.IpAddr))
    (net : WebFetch.Url → Option WebFetch.HttpResponse)
    (join : WebFetch.Url → Str → Option WebFetch.Url)
    (hnet : ∀ w, ∃ r, net w = some r ∧
      WebFetch.should_follow_redirect r.status = true ∧
      ∃ loc, r.location = some loc ∧
        ∃ v, join w loc = some v ∧ WebFetch.validate_parsed dns v = .ok v)
    (fuel : Nat) (u : WebFetch.Url) :
    WebFetch.fetchGo dns net join fuel u = .error "Too many redirects".data := by
  induction fuel generalizing u with
  | zero =>
    obtain ⟨r, hr, hfollow, loc, hloc, v, hjoin, hval⟩ := hnet u
    exact fetchGo_exhausted dns net join u r hr hfollow
  | succ f ih =>
    obtain ⟨r, hr, hfollow, loc, hloc, v, hjoin, hval⟩ := hnet u
    rw [fetchGo_step dns net join f u r loc hr hfollow hloc]
    have hrv : WebFetch.resolve_and_validate_redirect_target dns join u loc =
        .ok v := by
      unfold WebFetch.resolve_and_validate_redirect_target
      rw [hjoin]
      exact hval
    rw [hrv]
    dsimp only
    rw [ih v]

/-- Claim C3: for every web_fetch success, the initial URL and every
redirect target actually requested was validated before its request was
sent: each visited URL uses the http or https scheme, has a hostname that
is not blocked, and — as an IP literal or through DNS — resolves only to
non-private addresses; at most 11 requests (10 redirects) are made; and
when every response is a validatable redirect the fetch fails with the
too-many-redirects error. -/
theorem web_fetch_validated_chain (parse : Str → Option WebFetch.Url)
    (filterOk : Str → Bool) (dns : Str → Nat → Option (List WebFetch.IpAddr))
    (net : WebFetch.Url → Option WebFetch.HttpResponse)
    (join : WebFetch.Url → Str → Option WebFetch.Url) (urlStr : Str) :
    (∀ resp fin visited,
      WebFetch.executeFetch parse filterOk dns net join urlStr =
        .ok (resp, fin, visited) →
      (∀ v ∈ visited, WebFetch.validate_parsed dns v = .ok v) ∧
      visited.length ≤ WebFetch.MAX_WEB_FETCH_REDIRECTS + 1 ∧
      ∀ v ∈ visited,
        (v.scheme = "http".data ∨ v.scheme = "https".data) ∧
        ∃ host, v.host = some host ∧
          WebFetch.is_blocked_hostname host = false ∧
          (∀ ip, WebFetch.parse_ipv4 host = some ip →
            WebFetch.is_private_ip ip = false) ∧
          (WebFetch.parse_ipv4 host = none →
            ∃ addrs, dns host (WebFetch.port_or_known_default v) = some addrs ∧
              ∀ ip ∈ addrs, WebFetch.is_private_ip ip = false)) ∧
    ((∀ w, ∃ r, net w = some r ∧
        WebFetch.should_follow_redirect r.status = true ∧
        ∃ loc, r.location = some loc ∧
          ∃ v, join w loc = some v ∧
            WebFetch.validate_parsed dns v = .ok v) →
      ∀ u, WebFetch.fetch_with_validated_redirects dns net join u =
        .error "Too many redirects".data) := by
  constructor
  · intro resp fin visited h
    unfold WebFetch.executeFetch at h
    split at h
    · simp at h
    · split at h
      · simp at h
      · rename_i parsed hval
        have hvp : WebFetch.validate_parsed dns parsed = .ok parsed := by
          unfold WebFetch.validate_web_fetch_url at hval
          split at hval
          · simp at hval
          · rename_i u0 hparse
            have := validate_parsed_ok_eq dns u0 parsed hval
            subst this
            exact hval
        unfold WebFetch.fetch_with_validated_redirects at h
        obtain ⟨hall, hlen⟩ := fetchGo_ok_visited dns net join
          WebFetch.MAX_WEB_FETCH_REDIRECTS parsed hvp resp fin visited h
        exact ⟨hall, hlen,
          fun v hv => validate_parsed_ok_spec dns v (hall v hv)⟩
  · intro hnet u
    unfold WebFetch.fetch_with_validated_redirects
    exact fetchGo_all_redirects dns net join hnet WebFetch.MAX_WEB_FETCH_REDIRECTS u

/-- Witness for C3 at a concrete input: fetching https://example.com/ in a
world where the host resolves to a public address and the response is a
plain 200 succeeds, and every visited URL passes validation. -/
theorem web_fetch_validated_chain_witness :
    ∀ v ∈ [({ scheme := "https".data, host := some "example.com".data,
              port := none, path := "/".data } : WebFetch.Url)],
      WebFetch.validate_parsed
        (fun h p => if h == "example.com".data && p == 443 then
          some [WebFetch.IpAddr.v4 93 184 216 34] else none) v = .ok v :=
  ((web_fetch_validated_chain
    (fun s => if s == "https://example.com/".data then
      some { scheme := "https".data, host := some "example.com".data,
             port := none, path := "/".data } else none)
    (fun _ => true)
    (fun h p => if h == "example.com".data && p == 443 then
      some [WebFetch.IpAddr.v4 93 184 216 34] else none)
    (fun u => if u == { scheme := "https".data, host := some "example.com".data,
                        port := none, path := "/".data } then
      some { status := 200, location := none } else none)
    (fun _ _ => none)
    "https://example.com/".data).1
    { status := 200, location := none }
    { scheme := "https".data, host := some "example.com".data,
      port := none, path := "/".data }
    [{ scheme := "https".data, host := some "example.com".data,
       port := none, path := "/".data }]
    (by rfl)).1
